import Mathlib

/-!
# Side panel: chat session and numbered summarizer sections

A shallow embedding of `src/sidepanel/index.js`.

* Module-level variables (`session`, `sectionNumbers`) and the DOM nodes the
  handlers touch are explicit state.
* The host APIs (`self.ai.languageModel`, `self.ai.summarizer`) are oracles that
  say how each call settles; every function also returns the list of host calls
  it made, in order.
* `runPrompt` is given twice: as one uninterrupted call (`runPrompt`), and as a
  step relation (`sessionStep`) in which a call is suspended at the `await` of
  line 31 and while the promise of `session.prompt` is pending, so that calls
  started together interleave.  The other `async` functions are run to completion.
* A rejection of an awaited promise and an exception thrown while evaluating the
  awaited expression reach the same `catch`, so they share the `Except.error`
  case of an oracle.  Where the source does *not* await a promise the two differ
  and are kept apart.
* Counters are JavaScript Numbers holding integers (far below 2^53), modelled by
  `Int`; `Number → String` conversion of an integer is its decimal form.
-/

set_option maxRecDepth 8000

namespace SidePanel

/-! ## JavaScript values -/

/-- An exception object; the code reads `e.message` and converts `e` to text. -/
structure JsError where
  name : String
  message : String
deriving DecidableEq, Repr

/-- Text of an error, as `Error.prototype.toString` builds it. -/
def JsError.toText (e : JsError) : String :=
  if e.name = "" then e.message
  else if e.message = "" then e.name
  else e.name ++ ": " ++ e.message

/-- How a promise settles. -/
inductive Settled (α : Type) where
  | fulfilled (v : α)
  | rejected (e : JsError)
deriving DecidableEq, Repr

/-- Code points that `String.prototype.trim` strips (WhiteSpace and LineTerminator). -/
def isJsWhiteSpace (c : Char) : Bool :=
  decide (c.toNat ∈ [0x9, 0xA, 0xB, 0xC, 0xD, 0x20, 0xA0, 0x1680, 0x2028, 0x2029,
    0x202F, 0x205F, 0x3000, 0xFEFF]) || (decide (0x2000 ≤ c.toNat) && decide (c.toNat ≤ 0x200A))

/-- The method `String.prototype.trim`. -/
def jsTrim (s : String) : String :=
  ⟨((s.data.dropWhile isJsWhiteSpace).reverse.dropWhile isJsWhiteSpace).reverse⟩

/-- The property `String.prototype.length`: the number of UTF-16 code units. -/
def jsLength (s : String) : Nat :=
  (s.data.map (fun c => if c.toNat < 0x10000 then 1 else 2)).sum

/-- Truthiness of a string: non-empty. -/
def jsTruthy (s : String) : Bool := !(s.data.isEmpty)

/-! ## Chatbot: `session`, `runPrompt`, `reset` -/

/-- The options object built by the prompt button handler.  `temperature` and
`topK` are passed through untouched (`none` is `undefined`). -/
structure ChatParams where
  systemPrompt : String
  temperature : Option Int
  topK : Option Int
deriving DecidableEq, Repr

/-- A language-model session object, as returned by `languageModel.create`. -/
structure LMSession where
  handle : Nat
  params : ChatParams
deriving DecidableEq, Repr

/-- The module variable `session` (line 26): declared without initialiser. -/
inductive SessionVar where
  | undefined
  | null
  | obj (s : LMSession)
deriving DecidableEq, Repr

/-- Truthiness of `session`. -/
def SessionVar.truthy : SessionVar → Bool
  | .obj _ => true
  | _ => false

/-- What evaluating `session.prompt(prompt)` does: it throws, or it returns a
promise that settles later. -/
inductive PromptCall where
  | throws (e : JsError)
  | returns (p : Settled String)
deriving DecidableEq, Repr

/-- The host object `self.ai.languageModel`. -/
structure LanguageModel where
  create : ChatParams → Except JsError Nat
  prompt : LMSession → String → PromptCall

/-- Calls made on the language-model API. -/
inductive ChatCall where
  | create (params : ChatParams)
  | prompt (s : LMSession) (text : String)
  | destroy (s : LMSession)
deriving DecidableEq, Repr

/-- Is this call a `languageModel.create`? -/
def ChatCall.isCreate : ChatCall → Bool
  | .create _ => true
  | _ => false

/-- Is this call a `session.prompt`? -/
def ChatCall.isPrompt : ChatCall → Bool
  | .prompt _ _ => true
  | _ => false

/-- State and outcome once a `runPrompt` call has settled. -/
structure RunPromptResult where
  session : SessionVar
  result : Settled String
  calls : List ChatCall
deriving DecidableEq, Repr

/-- The function `reset` (lines 44-49): destroy the session if there is one, then
`session = null`.  It has no `await`, so its body runs inside the caller. -/
def reset (session : SessionVar) : SessionVar × List ChatCall :=
  match session with
  | .obj s => (.null, [.destroy s])
  | _ => (.null, [])

/-- The `catch` clause of `runPrompt` (lines 34-41): `reset(); throw e`. -/
def runPromptCatch (session : SessionVar) (calls : List ChatCall) (e : JsError) :
    RunPromptResult :=
  let r := reset session
  { session := r.1, result := .rejected e, calls := calls ++ r.2 }

/-- The statement `return session.prompt(prompt)` (line 33), with `session` an
object.  Only an exception thrown by the call itself is inside the `try`: the
returned promise is handed back without `await`, so the `async` function settles
the way that promise does and the `catch` clause is not run. -/
def runPromptReturn (lm : LanguageModel) (s : LMSession) (calls : List ChatCall)
    (prompt : String) : RunPromptResult :=
  match lm.prompt s prompt with
  | .throws e => runPromptCatch (.obj s) (calls ++ [.prompt s prompt]) e
  | .returns p => { session := .obj s, result := p, calls := calls ++ [.prompt s prompt] }

/-- The function `runPrompt` (lines 28-42). -/
def runPrompt (lm : LanguageModel) (session : SessionVar) (prompt : String)
    (params : ChatParams) : RunPromptResult :=
  match session with
  | .obj s => runPromptReturn lm s [] prompt
  | falsy =>
    match lm.create params with
    | .error e => runPromptCatch falsy [.create params] e
    | .ok h => runPromptReturn lm ⟨h, params⟩ [.create params] prompt

/-! ## Chatbot: `runPrompt` calls that interleave -/

/-- One `runPrompt` call: the host as it answers this call, the prompt and the
params. -/
structure PromptRequest where
  lm : LanguageModel
  prompt : String
  params : ChatParams

/-- Where a started `runPrompt` call stands.
* `awaitingCreate`: suspended at the `await` of line 31.
* `awaitingPrompt p`: line 33 has handed back the promise of `session.prompt`,
  which is pending and will settle as `p`.
* `settled r`: the promise of the call has settled as `r`. -/
inductive CallPhase where
  | awaitingCreate
  | awaitingPrompt (p : Settled String)
  | settled (r : Settled String)
deriving DecidableEq, Repr

/-- Is the call suspended at the `await` of line 31? -/
def CallPhase.isAwaitingCreate : CallPhase → Bool
  | .awaitingCreate => true
  | _ => false

/-- Has the call been rejected? -/
def CallPhase.isRejected : CallPhase → Bool
  | .settled (.rejected _) => true
  | _ => false

/-- A started call and where it stands. -/
structure PromptCallState where
  request : PromptRequest
  phase : CallPhase

/-- The chatbot at run time: the variable `session`, the calls of `runPrompt`
started so far (in the order they were started) and the host calls made so far. -/
structure ChatRuntime where
  session : SessionVar
  calls : List PromptCallState
  trace : List ChatCall

/-- What happens to the chatbot.
* `start r`: `runPrompt(r.prompt, r.params)` is entered and runs until it
  suspends or settles.
* `createSettles k`: the promise of `create` awaited by call `k` settles and the
  call resumes.
* `promptSettles k`: the promise of `session.prompt` returned by call `k` settles.
* `reset`: `reset()` is called from outside `runPrompt` (line 80). -/
inductive SessionEvent where
  | start (r : PromptRequest)
  | createSettles (k : Nat)
  | promptSettles (k : Nat)
  | reset

/-- Line 33 executed by a call while `session` is the object `s`: the value of
`session` afterwards, the phase the call is left in, and the host calls made.
A throw of `session.prompt` runs the `catch` clause (lines 34-41). -/
def enterPrompt (r : PromptRequest) (s : LMSession) : SessionVar × CallPhase × List ChatCall :=
  match r.lm.prompt s r.prompt with
  | .throws e =>
    let z := reset (.obj s)
    (z.1, .settled (.rejected e), .prompt s r.prompt :: z.2)
  | .returns p => (.obj s, .awaitingPrompt p, [.prompt s r.prompt])

/-- Set the phase of call `k`. -/
def setPhase : List PromptCallState → Nat → CallPhase → List PromptCallState
  | [], _, _ => []
  | c :: rest, 0, ph => { c with phase := ph } :: rest
  | c :: rest, k + 1, ph => c :: setPhase rest k ph

/-- One step of the chatbot; `none` when the event cannot happen (no such call, or
the call is not waiting for that promise).
* `start`: lines 29-33 up to the first suspension: with a session, line 33; with
  none, `create(params)` is called and the call suspends.
* `createSettles`: on rejection the `catch` clause runs `reset()` on whatever
  `session` holds by then; on fulfilment line 31 assigns `session` and line 33
  follows without a suspension in between.
* `promptSettles`: the call settles as the promise does; no code of `runPrompt`
  runs. -/
def sessionStep (rt : ChatRuntime) : SessionEvent → Option ChatRuntime
  | .start r =>
    match rt.session with
    | .obj s =>
      let o := enterPrompt r s
      some { session := o.1, calls := rt.calls ++ [⟨r, o.2.1⟩], trace := rt.trace ++ o.2.2 }
    | _ =>
      some { rt with calls := rt.calls ++ [⟨r, .awaitingCreate⟩],
                     trace := rt.trace ++ [.create r.params] }
  | .createSettles k =>
    match rt.calls.get? k with
    | none => none
    | some c =>
      match c.phase with
      | .awaitingCreate =>
        match c.request.lm.create c.request.params with
        | .error e =>
          let z := reset rt.session
          some { session := z.1, calls := setPhase rt.calls k (.settled (.rejected e)),
                 trace := rt.trace ++ z.2 }
        | .ok h =>
          let o := enterPrompt c.request ⟨h, c.request.params⟩
          some { session := o.1, calls := setPhase rt.calls k o.2.1, trace := rt.trace ++ o.2.2 }
      | _ => none
  | .promptSettles k =>
    match rt.calls.get? k with
    | none => none
    | some c =>
      match c.phase with
      | .awaitingPrompt p => some { rt with calls := setPhase rt.calls k (.settled p) }
      | _ => none
  | .reset =>
    let z := reset rt.session
    some { rt with session := z.1, trace := rt.trace ++ z.2 }

/-- A sequence of steps. -/
def sessionRun (rt : ChatRuntime) : List SessionEvent → Option ChatRuntime
  | [] => some rt
  | e :: rest => (sessionStep rt e).bind (fun rt1 => sessionRun rt1 rest)

/-- The chatbot with `session` given and no call started yet. -/
def ChatRuntime.fresh (session : SessionVar) : ChatRuntime :=
  { session := session, calls := [], trace := [] }

/-- The event is a `reset`, or it starts a call while an earlier call is still
suspended at the `await` of `create`. -/
def outOfTurn (rt : ChatRuntime) : SessionEvent → Bool
  | .start _ => rt.calls.any (fun c => c.phase.isAwaitingCreate)
  | .reset => true
  | _ => false

/-- Some call has been rejected. -/
def hasFailed (rt : ChatRuntime) : Bool :=
  rt.calls.any (fun c => c.phase.isRejected)

/-- A run of successful calls with no reset in which no call is started while
`create` is pending: the state reached, or `none` if an event cannot happen, is
out of turn, or leaves a call rejected. -/
def sessionRunInTurn (rt : ChatRuntime) : List SessionEvent → Option ChatRuntime
  | [] => some rt
  | e :: rest =>
    if outOfTurn rt e then none
    else (sessionStep rt e).bind
      (fun rt1 => if hasFailed rt1 then none else sessionRunInTurn rt1 rest)

/-- Number of `create` calls an event adds: one for a `start` that finds no
session, none otherwise. -/
def createsAdded (rt : ChatRuntime) : SessionEvent → Nat
  | .start _ => if rt.session.truthy then 0 else 1
  | _ => 0

/-- The invariant behind C5 for runs in turn: nothing started yet; or the first
call is waiting for `create`; or `session` holds the session created for the
first call, no call waits for `create`, and the host was asked to create once
and then to prompt that session once per call. -/
def ReuseInv (rt : ChatRuntime) : Prop :=
  (rt.calls = [] ∧ rt.trace = [] ∧ rt.session.truthy = false)
    ∨ (∃ r0, rt.calls = [⟨r0, .awaitingCreate⟩] ∧ rt.trace = [.create r0.params]
        ∧ rt.session.truthy = false)
    ∨ (∃ c0 rest h, rt.calls = c0 :: rest
        ∧ c0.request.lm.create c0.request.params = .ok h
        ∧ rt.session = .obj ⟨h, c0.request.params⟩
        ∧ rt.trace = .create c0.request.params
            :: rt.calls.map (fun c => ChatCall.prompt ⟨h, c0.request.params⟩ c.request.prompt)
        ∧ ∀ c ∈ rt.calls, c.phase.isAwaitingCreate = false)

/-! ## Chat box controls (lines 76-134) -/

/-- The chat box: the controls the handlers read and write, and the number of
`runPrompt` calls started by a click whose promise has not settled yet. -/
structure ChatBox where
  inputValue : String
  buttonPromptDisabled : Bool
  buttonResetDisabled : Bool
  responseHidden : Bool
  loadingHidden : Bool
  errorHidden : Bool
  responseHTML : String
  errorText : String
  inFlight : Nat
deriving DecidableEq, Repr

/-- Events of the chat box. -/
inductive ChatEvent where
  | input (value : String)
  | clickPrompt
  | settle (r : Settled String)
  | clickReset
deriving DecidableEq, Repr

/-- The function `showLoading` (lines 108-113). -/
def showLoading (c : ChatBox) : ChatBox :=
  { c with buttonResetDisabled := false, responseHidden := true, errorHidden := true,
           loadingHidden := false }

/-- The function `showResponse` (lines 115-119); `render` is
`DOMPurify.sanitize(marked.parse(·))`. -/
def showResponse (render : String → String) (c : ChatBox) (response : String) : ChatBox :=
  { c with loadingHidden := true, responseHidden := false, responseHTML := render response }

/-- The function `showError` (lines 121-126). -/
def showError (c : ChatBox) (error : JsError) : ChatBox :=
  { c with errorHidden := false, responseHidden := true, loadingHidden := true,
           errorText := error.toText }

/-- One event of the chat box.  A click on a disabled button dispatches nothing,
and a call can only settle when one is in flight: those give `none`.
* `input`: handler of lines 84-90.
* `clickPrompt`: handler of lines 92-106 up to the `await`.
* `settle`: the rest of that handler (line 102 or 104).
* `clickReset`: handler of lines 76-82. -/
def chatStep (render : String → String) (c : ChatBox) : ChatEvent → Option ChatBox
  | .input v =>
    if jsTruthy (jsTrim v) then some { c with inputValue := v, buttonPromptDisabled := false }
    else some { c with inputValue := v, buttonPromptDisabled := true }
  | .clickPrompt =>
    if c.buttonPromptDisabled then none
    else some { showLoading c with inFlight := c.inFlight + 1 }
  | .settle r =>
    if c.inFlight = 0 then none
    else
      match r with
      | .fulfilled response => some { showResponse render c response with inFlight := c.inFlight - 1 }
      | .rejected e => some { showError c e with inFlight := c.inFlight - 1 }
  | .clickReset =>
    if c.buttonResetDisabled then none
    else some { c with loadingHidden := true, errorHidden := true, responseHidden := true,
                       buttonResetDisabled := true }

/-- A sequence of chat box events. -/
def chatRun (render : String → String) (c : ChatBox) : List ChatEvent → Option ChatBox
  | [] => some c
  | e :: rest => (chatStep render c e).bind (fun c1 => chatRun render c1 rest)

/-- Number of prompt-button clicks in a trace. -/
def clickCount (evs : List ChatEvent) : Nat :=
  evs.countP (fun e => decide (e = .clickPrompt))

/-- Number of settled calls in a trace. -/
def settleCount (evs : List ChatEvent) : Nat :=
  evs.countP (fun e => match e with | .settle _ => true | _ => false)

/-- The `disabled` attribute of the prompt button as the `input` events alone
determine it: that of the last `input` event, else the initial one. -/
def promptDisabledAfter (initial : Bool) : List ChatEvent → Bool
  | [] => initial
  | .input v :: rest => promptDisabledAfter (!(jsTruthy (jsTrim v))) rest
  | _ :: rest => promptDisabledAfter initial rest

/-! ## Summarizer sections: DOM model -/

/-- The constant `MAX_MODEL_CHARS` (line 20). -/
def MAX_MODEL_CHARS : Nat := 6000

/-- A DOM element, reduced to what the code reads and writes: its `id`, its
`value`, its content (`textContent` / `innerHTML`) and its `hidden` attribute. -/
structure Elem where
  id : String
  value : String
  content : String
  hidden : Bool
deriving DecidableEq, Repr

/-- The content of `#section-template` (the HTML file is not part of the sources):
the state in which a cloned section starts. -/
structure SectionTemplate where
  isOpen : Bool
  inputValue : String
  summarizeDisabled : Bool
  lengthOption : Elem
  elementSummary : Elem
  warningElement : Elem
deriving DecidableEq, Repr

/-- A section appended to `#sections`, with the variables its handlers close over
(`isSubsection`, `parentSectionId`, `sectionId`). -/
structure Section where
  isSubsection : Bool
  parentSectionId : Int
  sectionId : String
  title : String
  isOpen : Bool
  inputValue : String
  summarizeDisabled : Bool
  lengthOption : Elem
  elementSummary : Elem
  warningElement : Elem
deriving DecidableEq, Repr

/-- A value stored in `sectionNumbers.subsections`: an integer Number or `NaN`.
A key that was never written reads as `undefined` (`none` of a lookup). -/
inductive JsNum where
  | int (i : Int)
  | nan
deriving DecidableEq, Repr

/-- The variable `sectionNumbers` (line 21). -/
structure SectionNumbers where
  main : Int
  subsections : List (Int × JsNum)
deriving DecidableEq, Repr

/-- Property read `subsections[key]`. -/
def lookupSub : List (Int × JsNum) → Int → Option JsNum
  | [], _ => none
  | (k, v) :: rest, key => if k = key then some v else lookupSub rest key

/-- Property write `subsections[key] = v`. -/
def setSub : List (Int × JsNum) → Int → JsNum → List (Int × JsNum)
  | [], key, v => [(key, v)]
  | (k, w) :: rest, key, v => if k = key then (k, v) :: rest else (k, w) :: setSub rest key v

/-- String conversion of what a read of `subsections[key]` gives. -/
def subToString : Option JsNum → String
  | none => "undefined"
  | some .nan => "NaN"
  | some (.int i) => toString i

/-- The value `x + d` stored back by `x++` (d = 1) and `x--` (d = -1). -/
def subBump (d : Int) : Option JsNum → JsNum
  | some (.int i) => .int (i + d)
  | _ => .nan

/-- The page: `sectionNumbers` and the children of `#sections` in document order. -/
structure Page where
  sectionNumbers : SectionNumbers
  sections : List Section
deriving DecidableEq, Repr

/-- The page as loaded. -/
def Page.initial : Page :=
  { sectionNumbers := { main := 0, subsections := [] }, sections := [] }

/-- The function `toggleSection` (lines 213-215). -/
def toggleSection (s : Section) : Section := { s with isOpen := !s.isOpen }

/-- The function `createNewSection` (lines 137-211).  For a top-level section the
argument `parentSectionId` is overwritten before use (line 149). -/
def createNewSection (tpl : SectionTemplate) (isSubsection : Bool) (parentSectionId : Int)
    (p : Page) : Page :=
  let nums := p.sectionNumbers
  let alloc : Int × String × SectionNumbers :=
    if isSubsection then
      let cur := lookupSub nums.subsections parentSectionId
      (parentSectionId, toString parentSectionId ++ "." ++ subToString cur,
        { nums with subsections := setSub nums.subsections parentSectionId (subBump 1 cur) })
    else
      let m := nums.main + 1
      (m, toString m ++ ".0",
        { main := m, subsections := setSub nums.subsections m (.int 1) })
  let parent := alloc.1
  let sectionId := alloc.2.1
  let sec : Section :=
    { isSubsection := isSubsection
      parentSectionId := parent
      sectionId := sectionId
      title := "Section " ++ sectionId
      isOpen := tpl.isOpen
      inputValue := tpl.inputValue
      summarizeDisabled := tpl.summarizeDisabled
      lengthOption := { tpl.lengthOption with id := "length-" ++ sectionId }
      elementSummary := { tpl.elementSummary with id := "text-summary-" ++ sectionId }
      warningElement := { tpl.warningElement with id := "warning-" ++ sectionId } }
  { sectionNumbers := alloc.2.2, sections := p.sections ++ [toggleSection sec] }

/-- The click handler of the remove button of a section (lines 197-204). -/
def removeSection (p : Page) (i : Nat) (s : Section) : Page :=
  let nums := p.sectionNumbers
  let nums1 : SectionNumbers :=
    if !s.isSubsection then { nums with main := nums.main - 1 }
    else
      let cur := lookupSub nums.subsections s.parentSectionId
      { nums with subsections := setSub nums.subsections s.parentSectionId (subBump (-1) cur) }
  { sections := p.sections.eraseIdx i, sectionNumbers := nums1 }

/-! ## Element lookup by id

Only the three elements that `createNewSection` renames carry a section-specific
id.  The other elements of the page keep fixed ids from the HTML, none of which
starts with `length-`, `text-summary-` or `warning-`, so a lookup of such an id
is decided by the sections alone.  `document.getElementById` returns the first
match in document order, that is, in the order of `Page.sections`. -/

/-- The three renamed elements of a section. -/
inductive ElemKind where
  | lengthOption
  | elementSummary
  | warningElement
deriving DecidableEq, Repr

/-- Field access by kind. -/
def Section.elem (s : Section) : ElemKind → Elem
  | .lengthOption => s.lengthOption
  | .elementSummary => s.elementSummary
  | .warningElement => s.warningElement

/-- Field update by kind. -/
def Section.modifyElem (s : Section) (k : ElemKind) (f : Elem → Elem) : Section :=
  match k with
  | .lengthOption => { s with lengthOption := f s.lengthOption }
  | .elementSummary => { s with elementSummary := f s.elementSummary }
  | .warningElement => { s with warningElement := f s.warningElement }

/-- The element of a section that carries the given id, if any. -/
def Section.findId (s : Section) (id : String) : Option ElemKind :=
  if s.lengthOption.id = id then some .lengthOption
  else if s.elementSummary.id = id then some .elementSummary
  else if s.warningElement.id = id then some .warningElement
  else none

/-- Position (section index, element) of the first element with the given id. -/
def findElement : List Section → String → Option (Nat × ElemKind)
  | [], _ => none
  | s :: rest, id =>
    match s.findId id with
    | some k => some (0, k)
    | none => (findElement rest id).map (fun r => (r.1 + 1, r.2))

/-- Apply `f` to the section at index `i`. -/
def modifySection : List Section → Nat → (Section → Section) → List Section
  | [], _, _ => []
  | s :: rest, 0, f => f s :: rest
  | s :: rest, i + 1, f => s :: modifySection rest i f

/-- The call `document.getElementById(id)`, `none` for `null`. -/
def getElementById (p : Page) (id : String) : Option Elem :=
  match findElement p.sections id with
  | none => none
  | some r => (p.sections.get? r.1).map (fun s => s.elem r.2)

/-- Write through the reference that `getElementById(id)` returns.  When the
lookup gives `null` the property write throws a TypeError; both callers are
`async` functions whose promise nobody observes before the next statement, so the
page is left as it was. -/
def updateElementById (p : Page) (id : String) (f : Elem → Elem) : Page :=
  match findElement p.sections id with
  | none => p
  | some r => { p with sections := modifySection p.sections r.1 (fun s => s.modifyElem r.2 f) }

/-- The function `showSummary` (lines 263-266). -/
def showSummary (render : String → String) (p : Page) (text : String) (sectionId : String) :
    Page :=
  updateElementById p ("text-summary-" ++ sectionId) (fun e => { e with content := render text })

/-- The function `updateWarning` (lines 268-276). -/
def updateWarning (p : Page) (warning : String) (sectionId : String) : Page :=
  updateElementById p ("warning-" ++ sectionId)
    (fun e => { e with content := warning, hidden := !(jsTruthy warning) })

/-! ## Summarizer: `createSummarizer`, `generateSummary` -/

/-- The options object passed to `summarizer.create`. -/
structure SummarizerConfig where
  type : String
  format : String
  length : String
deriving DecidableEq, Repr

/-- A summarizer session object. -/
structure SummarizerSession where
  handle : Nat
  config : SummarizerConfig
deriving DecidableEq, Repr

/-- The host as one `generateSummary` call meets it.
* `aiPresent`: truthiness of `self.ai`.
* `capabilities`: the `available` field of what `summarizer.capabilities()` resolves to.
* `create`: handle of the session `summarizer.create` resolves to.
* `ready`: the promise `summarizationSession.ready`.
* `summarize`: the promise `session.summarize(text)`.
* `nullRead`: the TypeError raised by reading `.value` of `null`. -/
structure Summarizer where
  aiPresent : Bool
  capabilities : Except JsError String
  create : SummarizerConfig → Except JsError Nat
  ready : SummarizerSession → Except JsError Unit
  summarize : SummarizerSession → String → Except JsError String
  nullRead : JsError

/-- Calls observed while a summary is produced. -/
inductive SummaryCall where
  | generateSummary (text : String) (sectionId : String)
  | capabilities
  | create (config : SummarizerConfig)
  | addEventListener (s : SummarizerSession)
  | ready (s : SummarizerSession)
  | summarize (s : SummarizerSession) (text : String)
  | destroy (s : SummarizerSession)
deriving DecidableEq, Repr

/-- The function `createSummarizer` (lines 240-260): the session or the error
thrown, and the host calls made. -/
def createSummarizer (host : Summarizer) (config : SummarizerConfig) :
    Except JsError SummarizerSession × List SummaryCall :=
  if !host.aiPresent then
    (.error ⟨"Error", "AI Summarization is not supported in this browser"⟩, [])
  else
    match host.capabilities with
    | .error e => (.error e, [.capabilities])
    | .ok available =>
      if available = "no" then
        (.error ⟨"Error", "AI Summarization is not supported"⟩, [.capabilities])
      else
        match host.create config with
        | .error e => (.error e, [.capabilities, .create config])
        | .ok h =>
          let summarizationSession : SummarizerSession := ⟨h, config⟩
          if available = "after-download" then
            match host.ready summarizationSession with
            | .error e =>
              (.error e, [.capabilities, .create config,
                .addEventListener summarizationSession, .ready summarizationSession])
            | .ok _ =>
              (.ok summarizationSession, [.capabilities, .create config,
                .addEventListener summarizationSession, .ready summarizationSession])
          else (.ok summarizationSession, [.capabilities, .create config])

/-- The `try` block of `generateSummary` (lines 219-232): the value returned or the
exception that leaves the block. -/
def generateSummaryTry (host : Summarizer) (p : Page) (text : String) (sectionId : String) :
    Except JsError String × List SummaryCall :=
  match getElementById p ("length-" ++ sectionId) with
  | none => (.error host.nullRead, [])
  | some summaryLengthSelect =>
    match createSummarizer host
        { type := "key-points", format := "markdown", length := summaryLengthSelect.value } with
    | (.error e, calls) => (.error e, calls)
    | (.ok session, calls) =>
      match host.summarize session text with
      | .error e => (.error e, calls ++ [.summarize session text])
      | .ok summary => (.ok summary, calls ++ [.summarize session text, .destroy session])

/-- The function `generateSummary` (lines 217-239): how its promise settles, and the
calls made (its own entry first). -/
def generateSummary (host : Summarizer) (p : Page) (text : String) (sectionId : String) :
    Settled String × List SummaryCall :=
  match generateSummaryTry host p text sectionId with
  | (.ok summary, calls) => (.fulfilled summary, .generateSummary text sectionId :: calls)
  | (.error e, calls) => (.fulfilled e.message, .generateSummary text sectionId :: calls)

/-- Number of `destroy` calls on a session. -/
def destroyCount (calls : List SummaryCall) (s : SummarizerSession) : Nat :=
  calls.count (.destroy s)

/-! ## Section handlers and events -/

/-- The text passed to `updateWarning` on line 186.  It is written between double
quotes in the source, so the characters `$\x7bcontent.length\x7d` are part of the text. -/
def tooLongWarning : String :=
  "Text is too long for summarization with $\x7bcontent.length\x7d characters (maximum supported content length is ~6000 characters)."

/-- The click handler of `buttonSummarize` (lines 180-195) of section `s`, run to
completion: the page afterwards and the calls made. -/
def buttonSummarizeClick (render : String → String) (host : Summarizer) (p : Page)
    (s : Section) : Page × List SummaryCall :=
  let content := jsTrim s.inputValue
  if jsLength content > MAX_MODEL_CHARS then
    (updateWarning p tooLongWarning s.sectionId, [])
  else
    let p1 := updateWarning p "" s.sectionId
    let p2 := showSummary render p1 "Loading... (may take a couple of seconds)" s.sectionId
    let out := generateSummary host p2 content s.sectionId
    match out.1 with
    | .fulfilled summary => (showSummary render p2 summary s.sectionId, out.2)
    | .rejected _ => (p2, out.2)

/-- The `input` handler of a section (lines 172-178), after the user set the value. -/
def sectionInput (s : Section) (value : String) : Section :=
  if jsTruthy (jsTrim value) then { s with inputValue := value, summarizeDisabled := false }
  else { s with inputValue := value, summarizeDisabled := true }

/-- User events on the summarizer part of the page.  A section is named by its
position among the sections currently in `#sections`. -/
inductive PageEvent where
  | addSection
  | addSubsection (i : Nat)
  | remove (i : Nat)
  | toggle (i : Nat)
  | input (i : Nat) (value : String)
  | summarize (i : Nat) (host : Summarizer)

/-- One event.  `none` when the section is not present, or when the summarize
button is disabled (a disabled button dispatches no click). -/
def pageStep (tpl : SectionTemplate) (render : String → String) (p : Page) :
    PageEvent → Option Page
  | .addSection => some (createNewSection tpl false 0 p)
  | .addSubsection i =>
    (p.sections.get? i).map (fun s => createNewSection tpl true s.parentSectionId p)
  | .remove i => (p.sections.get? i).map (fun s => removeSection p i s)
  | .toggle i =>
    (p.sections.get? i).map (fun _ => { p with sections := modifySection p.sections i toggleSection })
  | .input i v =>
    (p.sections.get? i).map
      (fun _ => { p with sections := modifySection p.sections i (fun s => sectionInput s v) })
  | .summarize i host =>
    (p.sections.get? i).bind
      (fun s => if s.summarizeDisabled then none else some (buttonSummarizeClick render host p s).1)

/-- A sequence of events. -/
def pageRun (tpl : SectionTemplate) (render : String → String) (p : Page) :
    List PageEvent → Option Page
  | [] => some p
  | e :: rest => (pageStep tpl render p e).bind (fun p1 => pageRun tpl render p1 rest)

/-- Number of top-level sections present. -/
def topLevelCount (ss : List Section) : Nat :=
  ss.countP (fun s => !s.isSubsection)

/-- Number of subsections present whose parent number is `parent`. -/
def subsectionCount (ss : List Section) (parent : Int) : Nat :=
  ss.countP (fun s => s.isSubsection && decide (s.parentSectionId = parent))

/-- Is the event a click on a remove button? -/
def PageEvent.isRemove : PageEvent → Bool
  | .remove _ => true
  | _ => false

/-- Does the event remove a top-level section of page `p`? -/
def removesTopLevel (p : Page) : PageEvent → Bool
  | .remove i =>
    match p.sections.get? i with
    | some s => !s.isSubsection
    | none => false
  | _ => false

/-- A run in which no top-level section is removed: the page reached, if every
event is possible and none of them removes a top-level section. -/
def pageRunKeepingTop (tpl : SectionTemplate) (render : String → String) (p : Page) :
    List PageEvent → Option Page
  | [] => some p
  | e :: rest =>
    if removesTopLevel p e then none
    else (pageStep tpl render p e).bind (fun p1 => pageRunKeepingTop tpl render p1 rest)

/-! ## What the numbering depends on -/

/-- The part of a section that only `createNewSection` writes: the closure
variables and the ids of the three renamed elements. -/
structure SectionKey where
  isSubsection : Bool
  parentSectionId : Int
  sectionId : String
  lengthId : String
  summaryId : String
  warningId : String
deriving DecidableEq, Repr

/-- The key of a section. -/
def Section.key (s : Section) : SectionKey :=
  { isSubsection := s.isSubsection
    parentSectionId := s.parentSectionId
    sectionId := s.sectionId
    lengthId := s.lengthOption.id
    summaryId := s.elementSummary.id
    warningId := s.warningElement.id }

/-- The keys of the sections present, in document order. -/
def Page.keys (p : Page) : List SectionKey := p.sections.map Section.key

/-- Claim C7 read on a page: every top-level section present, with number `q`,
has `subsections[q]` equal to one plus the number of subsections present under `q`. -/
def nestedNumberingConsistent (p : Page) : Bool :=
  p.sections.all (fun s =>
    s.isSubsection ||
      decide (lookupSub p.sectionNumbers.subsections s.parentSectionId
        = some (.int (1 + (subsectionCount p.sections s.parentSectionId : Nat)))))

/-- Claim C9 read on a page: no two sections present have the same `sectionId`. -/
def sectionIdsUnique (p : Page) : Bool :=
  decide (p.sections.map (fun s => s.sectionId)).Nodup

/-- The invariant behind C7 in runs that keep every top-level section. -/
def NestedInv (p : Page) : Prop :=
  p.sectionNumbers.main = (p.keys.countP (fun k => !k.isSubsection) : Nat)
    ∧ (∀ k ∈ p.keys, 1 ≤ k.parentSectionId ∧ k.parentSectionId ≤ p.sectionNumbers.main)
    ∧ ∀ q : Int, 1 ≤ q → q ≤ p.sectionNumbers.main →
        lookupSub p.sectionNumbers.subsections q
          = some (.int (1 + (p.keys.countP
              (fun k => k.isSubsection && decide (k.parentSectionId = q)) : Nat)))

/-- Value of a decimal digit character. -/
def digitValue (c : Char) : Nat := c.toNat - 48

/-- Value of a string of decimal digits. -/
def decimalValue (cs : List Char) : Nat :=
  cs.foldl (fun acc c => 10 * acc + digitValue c) 0

/-- The invariant behind C9 in runs without a removal: `main` is a natural number
`n`, every section present is numbered `a.b` with `1 ≤ a ≤ n` and `b` below the
current counter of `a`, and the section ids are pairwise different. -/
def UniqueInv (p : Page) : Prop :=
  ∃ n : Nat, p.sectionNumbers.main = n
    ∧ (∀ k ∈ p.keys, ∃ a b c : Nat, 1 ≤ a ∧ a ≤ n ∧ k.parentSectionId = a
        ∧ k.sectionId = Nat.repr a ++ "." ++ Nat.repr b
        ∧ lookupSub p.sectionNumbers.subsections a = some (.int c) ∧ b < c)
    ∧ (p.keys.map (fun k => k.sectionId)).Nodup

/-- The three renamed elements carry the ids built from the section id. -/
def IdsInv (p : Page) : Prop :=
  ∀ k ∈ p.keys, k.lengthId = "length-" ++ k.sectionId
    ∧ k.summaryId = "text-summary-" ++ k.sectionId
    ∧ k.warningId = "warning-" ++ k.sectionId

/-! ## Concrete inputs used by the evaluations below -/

/-- The params object of the prompt button handler with both defaults unset. -/
def sampleParams : ChatParams :=
  { systemPrompt := "You are a helpful and friendly assistant who specializes in research.",
    temperature := none, topK := none }

/-- A language model whose `create` resolves and whose `prompt` returns a promise
that rejects. -/
def rejectingModel : LanguageModel :=
  { create := fun _ => .ok 7
    prompt := fun _ _ => .returns (.rejected ⟨"UnknownError", "generation failed"⟩) }

/-- A language model whose calls all succeed; the answer echoes the prompt. -/
def echoModel : LanguageModel :=
  { create := fun _ => .ok 7
    prompt := fun _ text => .returns (.fulfilled text) }

/-- A second language model like `echoModel`, whose `create` gives another session. -/
def secondEchoModel : LanguageModel :=
  { create := fun _ => .ok 8
    prompt := fun _ text => .returns (.fulfilled text) }

/-- A first request. -/
def requestOne : PromptRequest := ⟨echoModel, "one", sampleParams⟩

/-- A second request, with other params. -/
def requestTwo : PromptRequest := ⟨secondEchoModel, "two", { sampleParams with topK := some 3 }⟩

/-- The chatbot after `requestOne` and `requestTwo` were both served by the
session created for `requestOne`. -/
def reusedRuntime : ChatRuntime :=
  { session := .obj ⟨7, sampleParams⟩
    calls := [⟨requestOne, .settled (.fulfilled "one")⟩,
              ⟨requestTwo, .settled (.fulfilled "two")⟩]
    trace := [.create sampleParams, .prompt ⟨7, sampleParams⟩ "one",
              .prompt ⟨7, sampleParams⟩ "two"] }

/-- A section template: closed, empty input, summarize disabled, warning hidden. -/
def sampleTemplate : SectionTemplate :=
  { isOpen := false
    inputValue := ""
    summarizeDisabled := true
    lengthOption := { id := "length", value := "short", content := "", hidden := false }
    elementSummary := { id := "text-summary", value := "", content := "", hidden := false }
    warningElement := { id := "warning", value := "", content := "", hidden := true } }

/-- A summarizer that is readily available and whose `summarize` rejects. -/
def failingSummarizer : Summarizer :=
  { aiPresent := true
    capabilities := .ok "readily"
    create := fun _ => .ok 3
    ready := fun _ => .ok ()
    summarize := fun _ _ => .error ⟨"UnknownError", "summarization failed"⟩
    nullRead := ⟨"TypeError", "Cannot read properties of null (reading \"value\")"⟩ }

/-- A summarizer that is readily available and answers with a fixed text. -/
def workingSummarizer : Summarizer :=
  { failingSummarizer with summarize := fun _ _ => .ok "* a key point" }

/-- A page with one section, numbered 1.0. -/
def onePage : Page := createNewSection sampleTemplate false 0 Page.initial

/-- The section of `onePage`. -/
def firstSection : Section :=
  { isSubsection := false
    parentSectionId := 1
    sectionId := "1.0"
    title := "Section 1.0"
    isOpen := true
    inputValue := ""
    summarizeDisabled := true
    lengthOption := { id := "length-1.0", value := "short", content := "", hidden := false }
    elementSummary := { id := "text-summary-1.0", value := "", content := "", hidden := false }
    warningElement := { id := "warning-1.0", value := "", content := "", hidden := true } }

/-- The page after add-section, add-section, add-subsection on the second section,
and removal of the first section. -/
def sampleRunPage : Page :=
  removeSection
    (createNewSection sampleTemplate true 2 (createNewSection sampleTemplate false 0 onePage))
    0 firstSection

/-- The page after add-section, two add-subsection clicks on it, and removal of the
first subsection. -/
def keptTopPage : Page :=
  removeSection
    (createNewSection sampleTemplate true 1 (createNewSection sampleTemplate true 1 onePage))
    1 { firstSection with
          isSubsection := true, sectionId := "1.1", title := "Section 1.1",
          lengthOption := { firstSection.lengthOption with id := "length-1.1" },
          elementSummary := { firstSection.elementSummary with id := "text-summary-1.1" },
          warningElement := { firstSection.warningElement with id := "warning-1.1" } }

/-- The page after add-section, two add-subsection clicks, and add-section. -/
def fourSectionsPage : Page :=
  createNewSection sampleTemplate false 0
    (createNewSection sampleTemplate true 1 (createNewSection sampleTemplate true 1 onePage))

/-- The page after add-section, add-section, removal of the first section, and
add-section: two sections numbered 2.0. -/
def repeatedPage : Page :=
  createNewSection sampleTemplate false 0
    (removeSection (createNewSection sampleTemplate false 0 onePage) 0 firstSection)

/-- The second section numbered 2.0 of `repeatedPage`. -/
def secondSection : Section :=
  { firstSection with
      parentSectionId := 2, sectionId := "2.0", title := "Section 2.0",
      lengthOption := { firstSection.lengthOption with id := "length-2.0" },
      elementSummary := { firstSection.elementSummary with id := "text-summary-2.0" },
      warningElement := { firstSection.warningElement with id := "warning-2.0" } }

/-- The page `repeatedPage` after `value` was typed into its second section. -/
def repeatedTypedPage (value : String) : Page :=
  { repeatedPage with
      sections := modifySection repeatedPage.sections 1 (fun s => sectionInput s value) }

/-- A text of `n` letters. -/
def letters (n : Nat) : String := ⟨List.replicate n 'a'⟩

/-- The page `onePage` after `value` was typed into its section. -/
def typedPage (value : String) : Page :=
  { onePage with sections := modifySection onePage.sections 0 (fun s => sectionInput s value) }

/-- A chat box as loaded: empty input, prompt button disabled, nothing in flight. -/
def sampleChatBox : ChatBox :=
  { inputValue := "", buttonPromptDisabled := true, buttonResetDisabled := true,
    responseHidden := true, loadingHidden := true, errorHidden := true,
    responseHTML := "", errorText := "", inFlight := 0 }

/-! ## Chatbot: failure handling and session reuse -/

/-- A failure raised inside the `try` block of `runPrompt` (by `create`, or thrown by
the call `session.prompt` itself) leaves `session` null. -/
theorem runPromptCatch_session (session : SessionVar) (calls : List ChatCall) (e : JsError) :
    (runPromptCatch session calls e).session = .null := by
  cases session <;> rfl

/-- C1 (code evaluated at the failing input): with no session yet, `create` resolving
and `session.prompt` returning a promise that rejects, the `runPrompt` call is
rejected, `destroy` is never called and `session` still holds the session object
(it is not null) once the call has settled. -/
theorem runPrompt_rejected_promise_keeps_session :
    (runPrompt rejectingModel .undefined "hi" sampleParams).result
        = .rejected ⟨"UnknownError", "generation failed"⟩
      ∧ (runPrompt rejectingModel .undefined "hi" sampleParams).session
        = .obj ⟨7, sampleParams⟩
      ∧ (runPrompt rejectingModel .undefined "hi" sampleParams).session ≠ .null
      ∧ (runPrompt rejectingModel .undefined "hi" sampleParams).calls
        = [.create sampleParams, .prompt ⟨7, sampleParams⟩ "hi"] := by
  decide

theorem enterPrompt_countCreate (r : PromptRequest) (s : LMSession) :
    (enterPrompt r s).2.2.countP ChatCall.isCreate = 0 := by
  unfold enterPrompt
  cases r.lm.prompt s r.prompt <;> simp [reset, List.countP_cons, ChatCall.isCreate]

theorem reset_countCreate (session : SessionVar) :
    (reset session).2.countP ChatCall.isCreate = 0 := by
  cases session <;> simp [reset, List.countP_cons, ChatCall.isCreate]

/-- A step calls `create` exactly when it starts a call that finds no session. -/
theorem sessionStep_countCreate (rt rt1 : ChatRuntime) (e : SessionEvent)
    (h : sessionStep rt e = some rt1) :
    rt1.trace.countP ChatCall.isCreate
      = rt.trace.countP ChatCall.isCreate + createsAdded rt e := by
  cases e with
  | start r =>
    simp only [sessionStep] at h
    cases hs : rt.session with
    | obj s =>
      rw [hs] at h
      simp only [Option.some.injEq] at h
      subst h
      simp [List.countP_append, enterPrompt_countCreate, createsAdded, hs, SessionVar.truthy]
    | undefined =>
      rw [hs] at h
      simp only [Option.some.injEq] at h
      subst h
      simp [List.countP_append, List.countP_cons, ChatCall.isCreate, createsAdded, hs,
        SessionVar.truthy]
    | null =>
      rw [hs] at h
      simp only [Option.some.injEq] at h
      subst h
      simp [List.countP_append, List.countP_cons, ChatCall.isCreate, createsAdded, hs,
        SessionVar.truthy]
  | createSettles k =>
    simp only [sessionStep] at h
    cases hc : rt.calls.get? k with
    | none => rw [hc] at h; cases h
    | some c =>
      rw [hc] at h
      simp only at h
      cases hp : c.phase with
      | awaitingCreate =>
        rw [hp] at h
        simp only at h
        cases hcr : c.request.lm.create c.request.params with
        | error e =>
          rw [hcr] at h
          simp only [Option.some.injEq] at h
          subst h
          simp [List.countP_append, reset_countCreate, createsAdded]
        | ok hd =>
          rw [hcr] at h
          simp only [Option.some.injEq] at h
          subst h
          simp [List.countP_append, enterPrompt_countCreate, createsAdded]
      | awaitingPrompt p => rw [hp] at h; cases h
      | settled r => rw [hp] at h; cases h
  | promptSettles k =>
    simp only [sessionStep] at h
    cases hc : rt.calls.get? k with
    | none => rw [hc] at h; cases h
    | some c =>
      rw [hc] at h
      simp only at h
      cases hp : c.phase with
      | awaitingPrompt p =>
        rw [hp] at h
        simp only [Option.some.injEq] at h
        subst h
        simp [createsAdded]
      | awaitingCreate => rw [hp] at h; cases h
      | settled r => rw [hp] at h; cases h
  | reset =>
    simp only [sessionStep, Option.some.injEq] at h
    subst h
    simp [List.countP_append, reset_countCreate, createsAdded]

theorem setPhase_requests (l : List PromptCallState) (k : Nat) (ph : CallPhase) :
    (setPhase l k ph).map (fun c => c.request) = l.map (fun c => c.request) := by
  induction l generalizing k with
  | nil => rfl
  | cons c rest ih =>
    cases k with
    | zero => simp [setPhase]
    | succ j => simp [setPhase, ih]

theorem setPhase_mem (l : List PromptCallState) (k : Nat) (ph : CallPhase) (c : PromptCallState)
    (h : c ∈ setPhase l k ph) : c ∈ l ∨ c.phase = ph := by
  induction l generalizing k with
  | nil => simp [setPhase] at h
  | cons a rest ih =>
    cases k with
    | zero =>
      simp only [setPhase, List.mem_cons] at h
      rcases h with h | h
      · exact Or.inr (by rw [h])
      · exact Or.inl (List.mem_cons_of_mem _ h)
    | succ j =>
      simp only [setPhase, List.mem_cons] at h
      rcases h with h | h
      · exact Or.inl (h ▸ List.mem_cons_self _ _)
      · rcases ih j h with h1 | h1
        · exact Or.inl (List.mem_cons_of_mem _ h1)
        · exact Or.inr h1

theorem setPhase_ne_nil (c : PromptCallState) (rest : List PromptCallState) (k : Nat)
    (ph : CallPhase) :
    ∃ c1 rest1, setPhase (c :: rest) k ph = c1 :: rest1 ∧ c1.request = c.request := by
  cases k with
  | zero => exact ⟨_, _, rfl, rfl⟩
  | succ j => exact ⟨_, _, rfl, rfl⟩

theorem map_prompt_of_requests (l1 l2 : List PromptCallState) (s : LMSession)
    (h : l1.map (fun c => c.request) = l2.map (fun c => c.request)) :
    l1.map (fun c => ChatCall.prompt s c.request.prompt)
      = l2.map (fun c => ChatCall.prompt s c.request.prompt) := by
  have := congrArg (List.map (fun r : PromptRequest => ChatCall.prompt s r.prompt)) h
  simpa [List.map_map, Function.comp_def] using this

theorem hasFailed_false (rt : ChatRuntime) (h : ¬ hasFailed rt = true) (c : PromptCallState)
    (hc : c ∈ rt.calls) : c.phase.isRejected = false := by
  simp only [hasFailed, List.any_eq_true, not_exists, not_and] at h
  have := h c hc
  simpa using this

/-- One step in turn that leaves no call rejected keeps the invariant. -/
theorem sessionStep_reuseInv (rt rt1 : ChatRuntime) (e : SessionEvent)
    (h : sessionStep rt e = some rt1) (hturn : outOfTurn rt e = false)
    (hok : ¬ hasFailed rt1 = true) (hinv : ReuseInv rt) : ReuseInv rt1 := by
  rcases hinv with ⟨hcalls, htrace, hsess⟩ | ⟨r0, hcalls, htrace, hsess⟩ |
    ⟨c0, rest, hd, hcalls, hcreate, hsess, htrace, hphase⟩
  · -- nothing started yet
    cases e with
    | start r =>
      right; left
      simp only [sessionStep] at h
      cases hs : rt.session with
      | obj s => rw [hs] at hsess; simp [SessionVar.truthy] at hsess
      | undefined =>
        rw [hs] at h
        simp only [Option.some.injEq] at h
        subst h
        exact ⟨r, by simp [hcalls], by simp [htrace], rfl⟩
      | null =>
        rw [hs] at h
        simp only [Option.some.injEq] at h
        subst h
        exact ⟨r, by simp [hcalls], by simp [htrace], rfl⟩
    | createSettles k => simp [sessionStep, hcalls] at h
    | promptSettles k => simp [sessionStep, hcalls] at h
    | reset => simp [outOfTurn] at hturn
  · -- the first call waits for create
    cases e with
    | start r => simp [outOfTurn, hcalls, CallPhase.isAwaitingCreate] at hturn
    | createSettles k =>
      cases k with
      | succ j => simp [sessionStep, hcalls] at h
      | zero =>
        simp only [sessionStep, hcalls, List.get?_cons_zero] at h
        cases hcr : r0.lm.create r0.params with
        | error err =>
          rw [hcr] at h
          simp only [Option.some.injEq] at h
          subst h
          exact absurd (by simp [hasFailed, setPhase, CallPhase.isRejected]) hok
        | ok hd =>
          rw [hcr] at h
          simp only [Option.some.injEq] at h
          subst h
          unfold enterPrompt at hok ⊢
          cases hp : r0.lm.prompt ⟨hd, r0.params⟩ r0.prompt with
          | throws err =>
            rw [hp] at hok
            exact absurd (by simp [hasFailed, setPhase, CallPhase.isRejected]) hok
          | returns p =>
            right; right
            refine ⟨⟨r0, .awaitingPrompt p⟩, [], hd, ?_, hcr, ?_, ?_, ?_⟩
            · simp [setPhase]
            · simp
            · simp [htrace, setPhase]
            · simp [setPhase, CallPhase.isAwaitingCreate]
    | promptSettles k =>
      cases k with
      | succ j => simp [sessionStep, hcalls] at h
      | zero => simp [sessionStep, hcalls] at h
    | reset => simp [outOfTurn] at hturn
  · -- the session of the first call is in use
    cases e with
    | start r =>
      simp only [sessionStep, hsess] at h
      simp only [Option.some.injEq] at h
      subst h
      unfold enterPrompt at hok ⊢
      cases hp : r.lm.prompt ⟨hd, c0.request.params⟩ r.prompt with
      | throws err =>
        rw [hp] at hok
        exact absurd (by simp [hasFailed, CallPhase.isRejected]) hok
      | returns p =>
        right; right
        refine ⟨c0, rest ++ [⟨r, .awaitingPrompt p⟩], hd, ?_, hcreate, ?_, ?_, ?_⟩
        · simp [hcalls]
        · simp
        · simp [htrace, hcalls]
        · intro c hc
          simp only [List.mem_append, List.mem_singleton] at hc
          rcases hc with hc | hc
          · exact hphase c hc
          · subst hc; rfl
    | createSettles k =>
      simp only [sessionStep] at h
      cases hc : rt.calls.get? k with
      | none => rw [hc] at h; cases h
      | some c =>
        rw [hc] at h
        simp only at h
        have hmem : c ∈ rt.calls := List.get?_mem hc
        have hph := hphase c hmem
        cases hp : c.phase with
        | awaitingCreate => rw [hp] at hph; simp [CallPhase.isAwaitingCreate] at hph
        | awaitingPrompt p => rw [hp] at h; cases h
        | settled r => rw [hp] at h; cases h
    | promptSettles k =>
      simp only [sessionStep] at h
      cases hc : rt.calls.get? k with
      | none => rw [hc] at h; cases h
      | some c =>
        rw [hc] at h
        simp only at h
        cases hp : c.phase with
        | awaitingCreate => rw [hp] at h; cases h
        | settled r => rw [hp] at h; cases h
        | awaitingPrompt p =>
          rw [hp] at h
          simp only [Option.some.injEq] at h
          subst h
          right; right
          obtain ⟨c1, rest1, hset, hreq⟩ := setPhase_ne_nil c0 rest k (.settled p)
          refine ⟨c1, rest1, hd, ?_, ?_, ?_, ?_, ?_⟩
          · simp only
            rw [hcalls, hset]
          · rw [hreq]; exact hcreate
          · simp only
            rw [hreq]; exact hsess
          · simp only
            rw [hreq, htrace]
            congr 1
            exact map_prompt_of_requests _ _ _ (setPhase_requests rt.calls k (.settled p)).symm
          · intro c2 hc2
            rcases setPhase_mem rt.calls k (.settled p) c2 hc2 with h1 | h1
            · exact hphase c2 h1
            · rw [h1]; rfl
    | reset => simp [outOfTurn] at hturn

theorem sessionRunInTurn_reuseInv (rt rt1 : ChatRuntime) (evs : List SessionEvent)
    (h : sessionRunInTurn rt evs = some rt1) (hinv : ReuseInv rt) :
    ReuseInv rt1 ∧ sessionRun rt evs = some rt1 := by
  induction evs generalizing rt with
  | nil =>
    simp only [sessionRunInTurn, Option.some.injEq] at h
    subst h
    exact ⟨hinv, rfl⟩
  | cons e rest ih =>
    simp only [sessionRunInTurn] at h
    split at h
    · cases h
    · rename_i hturn
      simp only [Option.bind_eq_some] at h
      obtain ⟨rt2, h2, h3⟩ := h
      split at h3
      · cases h3
      · rename_i hok
        have hturn1 : outOfTurn rt e = false := by simpa using hturn
        obtain ⟨ih1, ih2⟩ := ih rt2 h3 (sessionStep_reuseInv rt rt2 e h2 hturn1 hok hinv)
        exact ⟨ih1, by simp [sessionRun, h2, ih2]⟩

/-- The function `runPrompt` is the step relation with one call and nothing in
between: `start`, then the settlements that call waits for. -/
theorem runPrompt_uninterrupted (r : PromptRequest) (session : SessionVar) :
    ∃ evs rt, evs ⊆ [SessionEvent.createSettles 0, SessionEvent.promptSettles 0]
      ∧ sessionRun (ChatRuntime.fresh session) (.start r :: evs) = some rt
      ∧ rt.session = (runPrompt r.lm session r.prompt r.params).session
      ∧ rt.trace = (runPrompt r.lm session r.prompt r.params).calls
      ∧ rt.calls.map (fun c => c.phase)
          = [.settled (runPrompt r.lm session r.prompt r.params).result] := by
  cases session with
  | obj s =>
    cases hp : r.lm.prompt s r.prompt with
    | throws e =>
      exact ⟨[], by
        simp [sessionRun, sessionStep, ChatRuntime.fresh, enterPrompt, runPrompt,
          runPromptReturn, runPromptCatch, hp, reset]⟩
    | returns p =>
      exact ⟨[.promptSettles 0], by
        simp [sessionRun, sessionStep, ChatRuntime.fresh, enterPrompt, runPrompt,
          runPromptReturn, hp, setPhase]⟩
  | undefined =>
    cases hc : r.lm.create r.params with
    | error e =>
      exact ⟨[.createSettles 0], by
        simp [sessionRun, sessionStep, ChatRuntime.fresh, runPrompt, hc, runPromptCatch, reset,
          setPhase]⟩
    | ok h =>
      cases hp : r.lm.prompt ⟨h, r.params⟩ r.prompt with
      | throws e =>
        exact ⟨[.createSettles 0], by
          simp [sessionRun, sessionStep, ChatRuntime.fresh, enterPrompt, runPrompt,
            runPromptReturn, runPromptCatch, hc, hp, reset, setPhase]⟩
      | returns p =>
        exact ⟨[.createSettles 0, .promptSettles 0], by
          simp [sessionRun, sessionStep, ChatRuntime.fresh, enterPrompt, runPrompt,
            runPromptReturn, hc, hp, setPhase]⟩
  | null =>
    cases hc : r.lm.create r.params with
    | error e =>
      exact ⟨[.createSettles 0], by
        simp [sessionRun, sessionStep, ChatRuntime.fresh, runPrompt, hc, runPromptCatch, reset,
          setPhase]⟩
    | ok h =>
      cases hp : r.lm.prompt ⟨h, r.params⟩ r.prompt with
      | throws e =>
        exact ⟨[.createSettles 0], by
          simp [sessionRun, sessionStep, ChatRuntime.fresh, enterPrompt, runPrompt,
            runPromptReturn, runPromptCatch, hc, hp, reset, setPhase]⟩
      | returns p =>
        exact ⟨[.createSettles 0, .promptSettles 0], by
          simp [sessionRun, sessionStep, ChatRuntime.fresh, enterPrompt, runPrompt,
            runPromptReturn, hc, hp, setPhase]⟩

/-- C5 (counterexample): two calls of `runPrompt` entered one right after the other,
before the `create` of the first has settled.  Both find `session` undefined and
both call `create`; both calls succeed, nothing resets, yet `create` was called
twice and the second call prompts the session created with its own params. -/
theorem runPrompt_overlapping_calls_create_twice :
    (sessionRun (ChatRuntime.fresh .undefined)
        [.start requestOne, .start requestTwo, .createSettles 0, .createSettles 1,
         .promptSettles 0, .promptSettles 1]).map
      (fun rt => (rt.trace, rt.trace.countP ChatCall.isCreate, rt.calls.map (fun c => c.phase),
        rt.session))
      = some ([.create sampleParams, .create { sampleParams with topK := some 3 },
               .prompt ⟨7, sampleParams⟩ "one",
               .prompt ⟨8, { sampleParams with topK := some 3 }⟩ "two"],
              2, [.settled (.fulfilled "one"), .settled (.fulfilled "two")],
              .obj ⟨8, { sampleParams with topK := some 3 }⟩) := by
  decide

/-- C5 (amended): `runPrompt` calls `languageModel.create` exactly when `session` is
null/undefined on entry (no other step calls it); and in every run of successful
calls with no reset in which no call is entered while the `create` of an earlier
call is still pending, once the first call is past `create`: `create` has been
called exactly once, by the first call with its params, every call prompts the
session created then (the params of later calls are not used), and `session`
holds that session. -/
theorem runPrompt_creates_once_in_turn (rtA rtB : ChatRuntime) (e : SessionEvent)
    (session0 : SessionVar) (evs : List SessionEvent) (rt : ChatRuntime)
    (first : PromptCallState) (rest : List PromptCallState)
    (hstep : sessionStep rtA e = some rtB)
    (h0 : session0.truthy = false)
    (h : sessionRunInTurn (ChatRuntime.fresh session0) evs = some rt)
    (hcalls : rt.calls = first :: rest)
    (hpast : first.phase.isAwaitingCreate = false) :
    rtB.trace.countP ChatCall.isCreate
        = rtA.trace.countP ChatCall.isCreate + createsAdded rtA e
      ∧ sessionRun (ChatRuntime.fresh session0) evs = some rt
      ∧ rt.trace.countP ChatCall.isCreate = 1
      ∧ ∃ hd, first.request.lm.create first.request.params = .ok hd
          ∧ rt.session = .obj ⟨hd, first.request.params⟩
          ∧ rt.trace = .create first.request.params
              :: rt.calls.map
                  (fun c => ChatCall.prompt ⟨hd, first.request.params⟩ c.request.prompt) := by
  refine ⟨sessionStep_countCreate rtA rtB e hstep, ?_⟩
  obtain ⟨hinv, hrun⟩ := sessionRunInTurn_reuseInv (ChatRuntime.fresh session0) rt evs h
    (Or.inl ⟨rfl, rfl, h0⟩)
  refine ⟨hrun, ?_⟩
  rcases hinv with ⟨hc, _, _⟩ | ⟨r0, hc, _, _⟩ | ⟨c0, rest0, hd, hc, hcreate, hsess, htrace, _⟩
  · rw [hc] at hcalls; cases hcalls
  · rw [hc] at hcalls
    simp only [List.cons.injEq] at hcalls
    rw [← hcalls.1] at hpast
    simp [CallPhase.isAwaitingCreate] at hpast
  · have hfirst : c0 = first := by
      rw [hc] at hcalls
      simp only [List.cons.injEq] at hcalls
      exact hcalls.1
    subst hfirst
    refine ⟨?_, hd, hcreate, hsess, htrace⟩
    rw [htrace]
    simp [List.countP_cons, ChatCall.isCreate, List.countP_eq_zero]

/-- Witness for C5 (amended): the second call is entered after the `create` of the
first has settled and while its prompt is pending; one `create`, both prompts on
session 7. -/
theorem runPrompt_creates_once_in_turn_witness :
    reusedRuntime.trace.countP ChatCall.isCreate = 1
      ∧ reusedRuntime.session = .obj ⟨7, sampleParams⟩
      ∧ reusedRuntime.trace
        = [.create sampleParams, .prompt ⟨7, sampleParams⟩ "one",
           .prompt ⟨7, sampleParams⟩ "two"] := by
  have hw := runPrompt_creates_once_in_turn (ChatRuntime.fresh .undefined)
    { session := .undefined, calls := [⟨requestOne, .awaitingCreate⟩],
      trace := [.create sampleParams] }
    (.start requestOne) .undefined
    [.start requestOne, .createSettles 0, .start requestTwo, .promptSettles 1, .promptSettles 0]
    reusedRuntime ⟨requestOne, .settled (.fulfilled "one")⟩
    [⟨requestTwo, .settled (.fulfilled "two")⟩] rfl rfl rfl rfl rfl
  exact ⟨hw.2.2.1, rfl, rfl⟩

/-! ## Summarizer: outcome of `generateSummary` -/

/-- C3 (code evaluated at the failing input): when `session.summarize` rejects,
`generateSummary` returns the error message and the session that `create`
produced has not been destroyed: the calls made contain no `destroy`. -/
theorem generateSummary_failure_leaks_session :
    generateSummary failingSummarizer onePage "some text" "1.0"
        = (.fulfilled "summarization failed",
            [.generateSummary "some text" "1.0", .capabilities,
             .create ⟨"key-points", "markdown", "short"⟩,
             .summarize ⟨3, ⟨"key-points", "markdown", "short"⟩⟩ "some text"])
      ∧ destroyCount (generateSummary failingSummarizer onePage "some text" "1.0").2
          ⟨3, ⟨"key-points", "markdown", "short"⟩⟩ = 0
      ∧ destroyCount (generateSummary workingSummarizer onePage "some text" "1.0").2
          ⟨3, ⟨"key-points", "markdown", "short"⟩⟩ = 1 := by
  decide

/-- C4: `generateSummary` never rejects.  With `el` the element found under
`length-<sectionId>` and `cfg` the options built from it: the promise is fulfilled
with the text `session.summarize(text)` resolves to when the capability check,
the creation (and, after a download, readiness) and the summarization succeed,
and otherwise with the message of the error raised first, by `createSummarizer`
itself (no `self.ai`, or availability `no`), by `capabilities`, by `create`, by
`ready`, or by `summarize`; with no such element it is fulfilled with the message
of the TypeError of the failed property read. -/
theorem generateSummary_never_fails (host : Summarizer) (p : Page) (text sectionId : String) :
    (∃ v, (generateSummary host p text sectionId).1 = .fulfilled v)
      ∧ (getElementById p ("length-" ++ sectionId) = none →
          (generateSummary host p text sectionId).1 = .fulfilled host.nullRead.message)
      ∧ ∀ el, getElementById p ("length-" ++ sectionId) = some el →
          ∀ cfg : SummarizerConfig, cfg = ⟨"key-points", "markdown", el.value⟩ →
          (host.aiPresent = false →
            (generateSummary host p text sectionId).1
              = .fulfilled "AI Summarization is not supported in this browser")
          ∧ (host.aiPresent = true →
              (∀ e, host.capabilities = .error e →
                (generateSummary host p text sectionId).1 = .fulfilled e.message)
              ∧ (host.capabilities = .ok "no" →
                  (generateSummary host p text sectionId).1
                    = .fulfilled "AI Summarization is not supported")
              ∧ ∀ available, host.capabilities = .ok available → available ≠ "no" →
                  (∀ e, host.create cfg = .error e →
                    (generateSummary host p text sectionId).1 = .fulfilled e.message)
                  ∧ ∀ h, host.create cfg = .ok h →
                      (∀ e, available = "after-download" → host.ready ⟨h, cfg⟩ = .error e →
                        (generateSummary host p text sectionId).1 = .fulfilled e.message)
                      ∧ ((available = "after-download" → host.ready ⟨h, cfg⟩ = .ok ()) →
                          (∀ e, host.summarize ⟨h, cfg⟩ text = .error e →
                            (generateSummary host p text sectionId).1 = .fulfilled e.message)
                          ∧ ∀ summary, host.summarize ⟨h, cfg⟩ text = .ok summary →
                              (generateSummary host p text sectionId).1
                                = .fulfilled summary)) := by
  refine ⟨?_, ?_, ?_⟩
  · unfold generateSummary
    split <;> exact ⟨_, rfl⟩
  · intro hnone
    simp [generateSummary, generateSummaryTry, hnone]
  · intro el hel cfg hcfg
    subst hcfg
    refine ⟨?_, ?_⟩
    · intro hai
      simp [generateSummary, generateSummaryTry, hel, createSummarizer, hai]
    · intro hai
      refine ⟨?_, ?_, ?_⟩
      · intro e he
        simp [generateSummary, generateSummaryTry, hel, createSummarizer, hai, he]
      · intro hno
        simp [generateSummary, generateSummaryTry, hel, createSummarizer, hai, hno]
      · intro available hav hne
        refine ⟨?_, ?_⟩
        · intro e he
          simp [generateSummary, generateSummaryTry, hel, createSummarizer, hai, hav, hne, he]
        · intro h hh
          refine ⟨?_, ?_⟩
          · intro e hafter he
            simp [generateSummary, generateSummaryTry, hel, createSummarizer, hai, hav, hne, hh,
              hafter, he]
          · intro hready
            by_cases hafter : available = "after-download"
            · have hr := hready hafter
              refine ⟨?_, ?_⟩
              · intro e he
                simp [generateSummary, generateSummaryTry, hel, createSummarizer, hai, hav, hne,
                  hh, hafter, hr, he]
              · intro summary hs
                simp [generateSummary, generateSummaryTry, hel, createSummarizer, hai, hav, hne,
                  hh, hafter, hr, hs]
            · refine ⟨?_, ?_⟩
              · intro e he
                simp [generateSummary, generateSummaryTry, hel, createSummarizer, hai, hav, hne,
                  hh, hafter, he]
              · intro summary hs
                simp [generateSummary, generateSummaryTry, hel, createSummarizer, hai, hav, hne,
                  hh, hafter, hs]

/-- Witness for C4: on a one-section page, a working summarizer returns the
summary text and one whose `summarize` rejects returns the error message. -/
theorem generateSummary_never_fails_witness :
    (generateSummary workingSummarizer onePage "some text" "1.0").1
        = .fulfilled "* a key point"
      ∧ (generateSummary failingSummarizer onePage "some text" "1.0").1
        = .fulfilled "summarization failed" := by
  have hel : getElementById onePage ("length-" ++ "1.0")
      = some ⟨"length-1.0", "short", "", false⟩ := by decide
  have h1 := (generateSummary_never_fails workingSummarizer onePage "some text" "1.0").2.2
    _ hel _ rfl
  have h2 := (generateSummary_never_fails failingSummarizer onePage "some text" "1.0").2.2
    _ hel _ rfl
  exact ⟨((((h1.2 rfl).2.2 "readily" rfl (by decide)).2 3 rfl).2 (fun _ => rfl)).2 _ rfl,
    ((((h2.2 rfl).2.2 "readily" rfl (by decide)).2 3 rfl).2 (fun _ => rfl)).1 _ rfl⟩

/-! ## Texts of a given length -/

theorem jsLength_letters (n : Nat) : jsLength (letters n) = n := by
  have h : (if 'a'.toNat < 0x10000 then 1 else 2) = 1 := by decide
  simp [jsLength, letters, List.map_replicate, h]

theorem jsTrim_letters (n : Nat) : jsTrim (letters n) = letters n := by
  have hw : isJsWhiteSpace 'a' = false := by decide
  have hd : ∀ m, (List.replicate m 'a').dropWhile isJsWhiteSpace = List.replicate m 'a' := by
    intro m
    cases m with
    | zero => rfl
    | succ k => simp [List.replicate_succ, List.dropWhile_cons, hw]
  simp [jsTrim, letters, hd]

/-- Over the limit, the click handler only calls `updateWarning`. -/
theorem buttonSummarizeClick_too_long (render : String → String) (host : Summarizer) (p : Page)
    (s : Section) (h : jsLength (jsTrim s.inputValue) > MAX_MODEL_CHARS) :
    buttonSummarizeClick render host p s = (updateWarning p tooLongWarning s.sectionId, []) := by
  simp [buttonSummarizeClick, h]

theorem sectionInput_inputValue (s : Section) (v : String) :
    (sectionInput s v).inputValue = v := by
  unfold sectionInput
  split <;> rfl

theorem sectionInput_sectionId (s : Section) (v : String) :
    (sectionInput s v).sectionId = s.sectionId := by
  unfold sectionInput
  split <;> rfl

/-- C10 (code evaluated at the failing input): for inputs of 6001 and of 6002
letters typed into section 1.0, the handler passes the same text to
`updateWarning`: the constant of line 186, in which the characters
`$\x7bcontent.length\x7d` stand as written, and which contains neither `6001` nor
`6002`. -/
theorem tooLongWarning_lacks_count :
    buttonSummarizeClick id workingSummarizer (typedPage (letters 6001))
        (sectionInput firstSection (letters 6001))
      = (updateWarning (typedPage (letters 6001)) tooLongWarning "1.0", [])
    ∧ buttonSummarizeClick id workingSummarizer (typedPage (letters 6002))
        (sectionInput firstSection (letters 6002))
      = (updateWarning (typedPage (letters 6002)) tooLongWarning "1.0", [])
    ∧ tooLongWarning
      = "Text is too long for summarization with $\x7bcontent.length\x7d characters (maximum supported content length is ~6000 characters)."
    ∧ ¬ ((toString 6001).data <:+: tooLongWarning.data)
    ∧ ¬ ((toString 6002).data <:+: tooLongWarning.data) := by
  refine ⟨?_, ?_, rfl, by decide, by decide⟩
  · have h := buttonSummarizeClick_too_long id workingSummarizer (typedPage (letters 6001))
      (sectionInput firstSection (letters 6001))
      (by simp [sectionInput_inputValue, jsTrim_letters, jsLength_letters, MAX_MODEL_CHARS])
    rw [sectionInput_sectionId] at h
    exact h
  · have h := buttonSummarizeClick_too_long id workingSummarizer (typedPage (letters 6002))
      (sectionInput firstSection (letters 6002))
      (by simp [sectionInput_inputValue, jsTrim_letters, jsLength_letters, MAX_MODEL_CHARS])
    rw [sectionInput_sectionId] at h
    exact h

/-! ## Chat box: calls in flight -/

/-- C8 (counterexample): after typing a prompt, two clicks on the prompt button are
both accepted, and two `runPrompt` calls are in flight; the button is still
enabled. -/
theorem chat_two_calls_in_flight :
    (chatRun id sampleChatBox [.input "hi", .clickPrompt, .clickPrompt]).map
        (fun c => (c.inFlight, decide (c.inFlight ≤ 1), c.buttonPromptDisabled))
      = some (2, false, false) := by
  decide

theorem chatStep_inFlight (render : String → String) (c c1 : ChatBox) (e : ChatEvent)
    (h : chatStep render c e = some c1) :
    c1.inFlight + settleCount [e] = c.inFlight + clickCount [e]
      ∧ c1.buttonPromptDisabled = promptDisabledAfter c.buttonPromptDisabled [e] := by
  cases e with
  | input v =>
    simp only [chatStep] at h
    split at h <;> rename_i hv <;> cases h <;>
      simp [settleCount, clickCount, promptDisabledAfter, hv]
  | clickPrompt =>
    simp only [chatStep] at h
    split at h
    · cases h
    · cases h
      simp [settleCount, clickCount, promptDisabledAfter, showLoading]
  | settle r =>
    simp only [chatStep] at h
    split at h
    · cases h
    · rename_i hpos
      cases r <;> cases h <;>
        simp [settleCount, clickCount, promptDisabledAfter, showResponse, showError] <;> omega
  | clickReset =>
    simp only [chatStep] at h
    split at h
    · cases h
    · cases h
      simp [settleCount, clickCount, promptDisabledAfter]

theorem promptDisabledAfter_cons (b : Bool) (e : ChatEvent) (rest : List ChatEvent) :
    promptDisabledAfter b (e :: rest) = promptDisabledAfter (promptDisabledAfter b [e]) rest := by
  cases e <;> simp [promptDisabledAfter]

/-- C8 (amended): along every run of the chat box, the number of `runPrompt` calls in
flight is the number of accepted clicks minus the number of settled calls, and
the `disabled` attribute of the prompt button is the one set by the last `input`
event (disabled exactly when the trimmed value is empty), whatever clicks and
settlements happened since: neither a click nor a settlement writes it. -/
theorem chat_inFlight_counts_clicks (render : String → String) (c c1 : ChatBox)
    (evs : List ChatEvent) (h : chatRun render c evs = some c1) :
    c1.inFlight + settleCount evs = c.inFlight + clickCount evs
      ∧ c1.buttonPromptDisabled = promptDisabledAfter c.buttonPromptDisabled evs := by
  induction evs generalizing c with
  | nil =>
    simp only [chatRun, Option.some.injEq] at h
    subst h
    simp [settleCount, clickCount, promptDisabledAfter]
  | cons e rest ih =>
    simp only [chatRun] at h
    cases hs : chatStep render c e with
    | none => rw [hs] at h; simp at h
    | some c2 =>
      rw [hs] at h
      simp only [Option.some_bind] at h
      obtain ⟨h1, h2⟩ := chatStep_inFlight render c c2 e hs
      obtain ⟨h3, h4⟩ := ih c2 h
      refine ⟨?_, ?_⟩
      · simp only [settleCount, clickCount, List.countP_cons, List.countP_nil] at h1 h3 ⊢
        omega
      · rw [promptDisabledAfter_cons, ← h2, h4]

/-- Witness for C8 (amended): three accepted clicks and one settlement leave two
calls in flight and the button enabled. -/
theorem chat_inFlight_counts_clicks_witness :
    chatRun id sampleChatBox [.input "hi", .clickPrompt, .clickPrompt, .settle (.fulfilled "yes"),
        .clickPrompt]
      = some { sampleChatBox with
                inputValue := "hi", buttonPromptDisabled := false, buttonResetDisabled := false,
                loadingHidden := false, responseHTML := "yes", inFlight := 2 }
    ∧ 2 + settleCount [.input "hi", .clickPrompt, .clickPrompt, .settle (.fulfilled "yes"),
        .clickPrompt]
      = sampleChatBox.inFlight + clickCount [.input "hi", .clickPrompt, .clickPrompt,
        .settle (.fulfilled "yes"), .clickPrompt] :=
  ⟨by decide,
    (chat_inFlight_counts_clicks id sampleChatBox
      { sampleChatBox with
          inputValue := "hi", buttonPromptDisabled := false, buttonResetDisabled := false,
          loadingHidden := false, responseHTML := "yes", inFlight := 2 }
      [.input "hi", .clickPrompt, .clickPrompt, .settle (.fulfilled "yes"), .clickPrompt]
      (by decide)).1⟩

/-! ## Sections: what each event does to the numbering -/

theorem modifySection_keys (l : List Section) (i : Nat) (f : Section → Section)
    (hf : ∀ s, (f s).key = s.key) :
    (modifySection l i f).map Section.key = l.map Section.key := by
  induction l generalizing i with
  | nil => rfl
  | cons s rest ih =>
    cases i with
    | zero => simp [modifySection, hf]
    | succ j => simp [modifySection, ih]

theorem modifyElem_key (s : Section) (k : ElemKind) (f : Elem → Elem)
    (hf : ∀ e, (f e).id = e.id) : (s.modifyElem k f).key = s.key := by
  cases k <;> simp [Section.modifyElem, Section.key, hf]

theorem updateElementById_frame (p : Page) (id : String) (f : Elem → Elem)
    (hf : ∀ e, (f e).id = e.id) :
    (updateElementById p id f).sectionNumbers = p.sectionNumbers
      ∧ (updateElementById p id f).keys = p.keys := by
  unfold updateElementById
  split
  · exact ⟨rfl, rfl⟩
  · exact ⟨rfl, modifySection_keys _ _ _ (fun s => modifyElem_key s _ f hf)⟩

theorem showSummary_frame (render : String → String) (p : Page) (text sectionId : String) :
    (showSummary render p text sectionId).sectionNumbers = p.sectionNumbers
      ∧ (showSummary render p text sectionId).keys = p.keys :=
  updateElementById_frame p _ _ (fun _ => rfl)

theorem updateWarning_frame (p : Page) (warning sectionId : String) :
    (updateWarning p warning sectionId).sectionNumbers = p.sectionNumbers
      ∧ (updateWarning p warning sectionId).keys = p.keys :=
  updateElementById_frame p _ _ (fun _ => rfl)

theorem buttonSummarizeClick_frame (render : String → String) (host : Summarizer) (p : Page)
    (s : Section) :
    (buttonSummarizeClick render host p s).1.sectionNumbers = p.sectionNumbers
      ∧ (buttonSummarizeClick render host p s).1.keys = p.keys := by
  unfold buttonSummarizeClick
  dsimp only
  split
  · exact updateWarning_frame p _ _
  · have h1 := updateWarning_frame p "" s.sectionId
    have h2 := showSummary_frame render (updateWarning p "" s.sectionId)
      "Loading... (may take a couple of seconds)" s.sectionId
    split
    · rename_i summary _
      have h3 := showSummary_frame render
        (showSummary render (updateWarning p "" s.sectionId)
          "Loading... (may take a couple of seconds)" s.sectionId) summary s.sectionId
      exact ⟨by rw [h3.1, h2.1, h1.1], by rw [h3.2, h2.2, h1.2]⟩
    · exact ⟨by rw [h2.1, h1.1], by rw [h2.2, h1.2]⟩

theorem sectionInput_key (s : Section) (v : String) : (sectionInput s v).key = s.key := by
  unfold sectionInput
  split <;> rfl

/-- The events that are not a click on an add or remove button leave the counters
and the keys of the sections as they are. -/
theorem pageStep_frame (tpl : SectionTemplate) (render : String → String) (p p1 : Page)
    (e : PageEvent) (h : pageStep tpl render p e = some p1)
    (he : match e with
      | .toggle _ => True
      | .input _ _ => True
      | .summarize _ _ => True
      | _ => False) :
    p1.sectionNumbers = p.sectionNumbers ∧ p1.keys = p.keys := by
  cases e with
  | addSection => exact he.elim
  | addSubsection i => exact he.elim
  | remove i => exact he.elim
  | toggle i =>
    simp only [pageStep, Option.map_eq_some'] at h
    obtain ⟨_, _, rfl⟩ := h
    exact ⟨rfl, modifySection_keys _ _ _ (fun _ => rfl)⟩
  | input i v =>
    simp only [pageStep, Option.map_eq_some'] at h
    obtain ⟨_, _, rfl⟩ := h
    exact ⟨rfl, modifySection_keys _ _ _ (fun s => sectionInput_key s v)⟩
  | summarize i host =>
    simp only [pageStep, Option.bind_eq_some] at h
    obtain ⟨s, _, hs⟩ := h
    split at hs
    · cases hs
    · cases hs
      exact buttonSummarizeClick_frame render host p s

theorem createNewSection_top (tpl : SectionTemplate) (q : Int) (p : Page) :
    (createNewSection tpl false q p).sectionNumbers
        = { main := p.sectionNumbers.main + 1,
            subsections :=
              setSub p.sectionNumbers.subsections (p.sectionNumbers.main + 1) (.int 1) }
      ∧ (createNewSection tpl false q p).keys
        = p.keys ++ [{ isSubsection := false
                       parentSectionId := p.sectionNumbers.main + 1
                       sectionId := toString (p.sectionNumbers.main + 1) ++ ".0"
                       lengthId := "length-" ++ (toString (p.sectionNumbers.main + 1) ++ ".0")
                       summaryId :=
                         "text-summary-" ++ (toString (p.sectionNumbers.main + 1) ++ ".0")
                       warningId :=
                         "warning-" ++ (toString (p.sectionNumbers.main + 1) ++ ".0") }] := by
  simp [createNewSection, Page.keys, Section.key, toggleSection]

theorem createNewSection_sub (tpl : SectionTemplate) (q : Int) (p : Page) :
    (createNewSection tpl true q p).sectionNumbers
        = { main := p.sectionNumbers.main,
            subsections :=
              setSub p.sectionNumbers.subsections q
                (subBump 1 (lookupSub p.sectionNumbers.subsections q)) }
      ∧ (createNewSection tpl true q p).keys
        = p.keys ++ [{ isSubsection := true
                       parentSectionId := q
                       sectionId := toString q ++ "."
                         ++ subToString (lookupSub p.sectionNumbers.subsections q)
                       lengthId := "length-" ++ (toString q ++ "."
                         ++ subToString (lookupSub p.sectionNumbers.subsections q))
                       summaryId := "text-summary-" ++ (toString q ++ "."
                         ++ subToString (lookupSub p.sectionNumbers.subsections q))
                       warningId := "warning-" ++ (toString q ++ "."
                         ++ subToString (lookupSub p.sectionNumbers.subsections q)) }] := by
  simp [createNewSection, Page.keys, Section.key, toggleSection]

theorem removeSection_keys (p : Page) (i : Nat) (s : Section) :
    (removeSection p i s).keys = p.keys.eraseIdx i := by
  simp only [removeSection, Page.keys]
  induction p.sections generalizing i with
  | nil => rfl
  | cons a rest ih =>
    cases i with
    | zero => rfl
    | succ j => simp [List.eraseIdx, ih]

theorem countP_eraseIdx {α : Type} (f : α → Bool) (l : List α) (i : Nat) (a : α)
    (h : l.get? i = some a) :
    (l.eraseIdx i).countP f + (if f a then 1 else 0) = l.countP f := by
  induction l generalizing i with
  | nil => simp at h
  | cons b rest ih =>
    cases i with
    | zero =>
      simp only [List.get?_cons_zero, Option.some.injEq] at h
      subst h
      simp [List.countP_cons]
    | succ j =>
      simp only [List.get?_cons_succ] at h
      have := ih j h
      simp only [List.eraseIdx_cons_succ, List.countP_cons]
      omega

theorem topLevelCount_keys (p : Page) :
    topLevelCount p.sections = p.keys.countP (fun k => !k.isSubsection) := by
  simp [topLevelCount, Page.keys, List.countP_map, Function.comp_def, Section.key]

theorem subsectionCount_keys (p : Page) (q : Int) :
    subsectionCount p.sections q
      = p.keys.countP (fun k => k.isSubsection && decide (k.parentSectionId = q)) := by
  simp [subsectionCount, Page.keys, List.countP_map, Function.comp_def, Section.key]

theorem keys_get? (p : Page) (i : Nat) (s : Section) (h : p.sections.get? i = some s) :
    p.keys.get? i = some s.key := by
  rw [List.get?_eq_getElem?] at h
  rw [Page.keys, List.get?_eq_getElem?, List.getElem?_map, h]
  rfl

/-- One event keeps `main` equal to the number of top-level sections. -/
theorem pageStep_main (tpl : SectionTemplate) (render : String → String) (p p1 : Page)
    (e : PageEvent) (h : pageStep tpl render p e = some p1)
    (hinv : p.sectionNumbers.main = topLevelCount p.sections) :
    p1.sectionNumbers.main = topLevelCount p1.sections := by
  rw [topLevelCount_keys] at hinv ⊢
  cases e with
  | addSection =>
    simp only [pageStep, Option.some.injEq] at h
    subst h
    obtain ⟨h1, h2⟩ := createNewSection_top tpl 0 p
    rw [h1, h2]
    simp [List.countP_append, hinv]
  | addSubsection i =>
    simp only [pageStep, Option.map_eq_some'] at h
    obtain ⟨s, _, rfl⟩ := h
    obtain ⟨h1, h2⟩ := createNewSection_sub tpl s.parentSectionId p
    rw [h1, h2]
    simp [List.countP_append, hinv]
  | remove i =>
    simp only [pageStep, Option.map_eq_some'] at h
    obtain ⟨s, hs, rfl⟩ := h
    rw [removeSection_keys]
    have hc := countP_eraseIdx (fun k : SectionKey => !k.isSubsection) p.keys i s.key
      (keys_get? p i s hs)
    cases hsub : s.isSubsection <;>
      simp [removeSection, hsub, Section.key] at hc ⊢ <;> omega
  | toggle i =>
    obtain ⟨h1, h2⟩ := pageStep_frame tpl render p p1 _ h trivial
    rw [h1, h2, hinv]
  | input i v =>
    obtain ⟨h1, h2⟩ := pageStep_frame tpl render p p1 _ h trivial
    rw [h1, h2, hinv]
  | summarize i host =>
    obtain ⟨h1, h2⟩ := pageStep_frame tpl render p p1 _ h trivial
    rw [h1, h2, hinv]

theorem pageRun_main (tpl : SectionTemplate) (render : String → String) (p p1 : Page)
    (evs : List PageEvent) (h : pageRun tpl render p evs = some p1)
    (hinv : p.sectionNumbers.main = topLevelCount p.sections) :
    p1.sectionNumbers.main = topLevelCount p1.sections := by
  induction evs generalizing p with
  | nil =>
    simp only [pageRun, Option.some.injEq] at h
    subst h
    exact hinv
  | cons e rest ih =>
    simp only [pageRun, Option.bind_eq_some] at h
    obtain ⟨p2, h2, h3⟩ := h
    exact ih p2 h3 (pageStep_main tpl render p p2 e h2 hinv)

/-- C6: after every sequence of events from the initial page, `sectionNumbers.main`
is the number of top-level sections present; from there a click on add-section
raises it by exactly 1 (and adds one top-level section), a click on the remove
button of a top-level section lowers it by exactly 1, and adding or removing a
subsection leaves it unchanged. -/
theorem main_counts_top_level_sections (tpl : SectionTemplate) (render : String → String)
    (evs : List PageEvent) (p : Page) (h : pageRun tpl render Page.initial evs = some p) :
    p.sectionNumbers.main = topLevelCount p.sections
      ∧ (∀ p1, pageStep tpl render p .addSection = some p1 →
          p1.sectionNumbers.main = p.sectionNumbers.main + 1
            ∧ topLevelCount p1.sections = topLevelCount p.sections + 1)
      ∧ (∀ i p1, pageStep tpl render p (.addSubsection i) = some p1 →
          p1.sectionNumbers.main = p.sectionNumbers.main
            ∧ topLevelCount p1.sections = topLevelCount p.sections)
      ∧ (∀ i s p1, p.sections.get? i = some s → pageStep tpl render p (.remove i) = some p1 →
          (s.isSubsection = false →
            p1.sectionNumbers.main = p.sectionNumbers.main - 1
              ∧ topLevelCount p1.sections + 1 = topLevelCount p.sections)
          ∧ (s.isSubsection = true →
            p1.sectionNumbers.main = p.sectionNumbers.main
              ∧ topLevelCount p1.sections = topLevelCount p.sections)) := by
  have hinv : p.sectionNumbers.main = topLevelCount p.sections :=
    pageRun_main tpl render Page.initial p evs h rfl
  refine ⟨hinv, ?_, ?_, ?_⟩
  · intro p1 h1
    have hm : p1.sectionNumbers.main = p.sectionNumbers.main + 1 := by
      simp only [pageStep, Option.some.injEq] at h1
      subst h1
      rw [(createNewSection_top tpl 0 p).1]
    have h2 := pageStep_main tpl render p p1 _ h1 hinv
    refine ⟨hm, ?_⟩
    omega
  · intro i p1 h1
    have hm : p1.sectionNumbers.main = p.sectionNumbers.main := by
      simp only [pageStep, Option.map_eq_some'] at h1
      obtain ⟨s, _, rfl⟩ := h1
      rw [(createNewSection_sub tpl s.parentSectionId p).1]
    have h2 := pageStep_main tpl render p p1 _ h1 hinv
    refine ⟨hm, ?_⟩
    omega
  · intro i s p1 hs h1
    have h2 := pageStep_main tpl render p p1 _ h1 hinv
    simp only [pageStep, hs, Option.map_some', Option.some.injEq] at h1
    subst h1
    constructor
    · intro hsub
      have hm : (removeSection p i s).sectionNumbers.main = p.sectionNumbers.main - 1 := by
        simp [removeSection, hsub]
      refine ⟨hm, ?_⟩
      omega
    · intro hsub
      have hm : (removeSection p i s).sectionNumbers.main = p.sectionNumbers.main := by
        simp [removeSection, hsub]
      refine ⟨hm, ?_⟩
      omega

/-- Witness for C6: two top-level sections and a subsection added, then the first
top-level section removed: one top-level section is left and `main` is 1. -/
theorem main_counts_top_level_sections_witness :
    pageRun sampleTemplate id Page.initial
        [.addSection, .addSection, .addSubsection 1, .remove 0] = some sampleRunPage
      ∧ sampleRunPage.sectionNumbers.main = 1
      ∧ sampleRunPage.sectionNumbers.main = topLevelCount sampleRunPage.sections :=
  ⟨by decide, by decide,
    (main_counts_top_level_sections sampleTemplate id
      [.addSection, .addSection, .addSubsection 1, .remove 0] sampleRunPage (by decide)).1⟩

/-! ## Sections: the counters of the subsections -/

theorem lookupSub_setSub (m : List (Int × JsNum)) (k k1 : Int) (v : JsNum) :
    lookupSub (setSub m k v) k1 = if k = k1 then some v else lookupSub m k1 := by
  induction m with
  | nil => simp [setSub, lookupSub]
  | cons a rest ih =>
    obtain ⟨ka, va⟩ := a
    by_cases h : ka = k
    · subst h
      by_cases h1 : ka = k1 <;> simp [setSub, lookupSub, h1]
    · by_cases h1 : ka = k1
      · subst h1
        simp [setSub, lookupSub, h, Ne.symm h]
      · simp [setSub, lookupSub, h, h1, ih]

theorem mem_of_mem_eraseIdx_keys {α : Type} (l : List α) (i : Nat) (a : α)
    (h : a ∈ l.eraseIdx i) : a ∈ l := by
  induction l generalizing i with
  | nil => simp at h
  | cons b rest ih =>
    cases i with
    | zero =>
      simp only [List.eraseIdx_cons_zero] at h
      exact List.mem_cons_of_mem _ h
    | succ j =>
      simp only [List.eraseIdx_cons_succ, List.mem_cons] at h
      rcases h with h | h
      · exact h ▸ List.mem_cons_self _ _
      · exact List.mem_cons_of_mem _ (ih j h)

theorem nestedInv_initial : NestedInv Page.initial := by
  refine ⟨rfl, ?_, ?_⟩
  · intro k hk
    simp [Page.keys, Page.initial] at hk
  · intro q h1 h2
    simp only [Page.initial] at h2
    omega

theorem nestedInv_of_frame (p p1 : Page) (h1 : p1.sectionNumbers = p.sectionNumbers)
    (h2 : p1.keys = p.keys) (hinv : NestedInv p) : NestedInv p1 := by
  unfold NestedInv at hinv ⊢
  rw [h1, h2]
  exact hinv

theorem pageStep_nestedInv (tpl : SectionTemplate) (render : String → String) (p p1 : Page)
    (e : PageEvent) (h : pageStep tpl render p e = some p1)
    (hkeep : removesTopLevel p e = false) (hinv : NestedInv p) : NestedInv p1 := by
  obtain ⟨hmain, hbound, hsub⟩ := hinv
  cases e with
  | addSection =>
    simp only [pageStep, Option.some.injEq] at h
    subst h
    obtain ⟨h1, h2⟩ := createNewSection_top tpl 0 p
    unfold NestedInv
    rw [h1, h2]
    refine ⟨?_, ?_, ?_⟩
    · simp [List.countP_append, hmain]
    · intro k hk
      simp only [List.mem_append, List.mem_singleton] at hk
      rcases hk with hk | hk
      · have := hbound k hk
        simp only
        omega
      · subst hk
        simp only
        have : (0 : Int) ≤ p.sectionNumbers.main := by rw [hmain]; exact Int.natCast_nonneg _
        omega
    · intro q hq1 hq2
      simp only at hq2 ⊢
      rw [lookupSub_setSub]
      by_cases hq : p.sectionNumbers.main + 1 = q
      · have hzero : p.keys.countP
            (fun k => k.isSubsection && decide (k.parentSectionId = q)) = 0 := by
          rw [List.countP_eq_zero]
          intro k hk
          have := hbound k hk
          simp only [Bool.and_eq_true, decide_eq_true_eq, not_and]
          intro _
          omega
        simp [hq, List.countP_append, hzero]
      · have hq3 : q ≤ p.sectionNumbers.main := by omega
        rw [if_neg hq, hsub q hq1 hq3]
        simp [List.countP_append]
  | addSubsection i =>
    simp only [pageStep, Option.map_eq_some'] at h
    obtain ⟨s, hs, rfl⟩ := h
    obtain ⟨h1, h2⟩ := createNewSection_sub tpl s.parentSectionId p
    have hsk : s.key ∈ p.keys := by
      have := keys_get? p i s hs
      exact List.get?_mem this
    have hsb := hbound s.key hsk
    simp only [Section.key] at hsb
    unfold NestedInv
    rw [h1, h2]
    refine ⟨?_, ?_, ?_⟩
    · simp [List.countP_append, hmain]
    · intro k hk
      simp only [List.mem_append, List.mem_singleton] at hk
      rcases hk with hk | hk
      · exact hbound k hk
      · subst hk
        exact hsb
    · intro q hq1 hq2
      simp only at hq2 ⊢
      rw [lookupSub_setSub, hsub s.parentSectionId hsb.1 hsb.2]
      by_cases hq : s.parentSectionId = q
      · subst hq
        simp [List.countP_append, subBump]
        omega
      · rw [if_neg hq, hsub q hq1 hq2]
        simp [List.countP_append, hq]
  | remove i =>
    simp only [pageStep, Option.map_eq_some'] at h
    obtain ⟨s, hs, rfl⟩ := h
    have hgs : p.sections.get? i = some s := hs
    have hsubsec : s.isSubsection = true := by
      simp only [removesTopLevel, hgs] at hkeep
      simpa using hkeep
    have hk := keys_get? p i s hs
    have hsk : s.key ∈ p.keys := List.get?_mem hk
    have hsb := hbound s.key hsk
    simp only [Section.key] at hsb
    have hnums : (removeSection p i s).sectionNumbers
        = { main := p.sectionNumbers.main,
            subsections := setSub p.sectionNumbers.subsections s.parentSectionId
              (subBump (-1) (lookupSub p.sectionNumbers.subsections s.parentSectionId)) } := by
      simp [removeSection, hsubsec]
    unfold NestedInv
    rw [hnums, removeSection_keys]
    refine ⟨?_, ?_, ?_⟩
    · have hc := countP_eraseIdx (fun k : SectionKey => !k.isSubsection) p.keys i s.key hk
      simp only [Section.key, hsubsec] at hc
      simp only
      rw [hmain]
      simp at hc
      rw [hc]
    · intro k hk1
      exact hbound k (mem_of_mem_eraseIdx_keys _ _ _ hk1)
    · intro q hq1 hq2
      simp only at hq2 ⊢
      have hc := countP_eraseIdx
        (fun k : SectionKey => k.isSubsection && decide (k.parentSectionId = q)) p.keys i s.key
        hk
      simp only [Section.key, hsubsec, Bool.true_and] at hc
      rw [lookupSub_setSub, hsub s.parentSectionId hsb.1 hsb.2]
      by_cases hq : s.parentSectionId = q
      · subst hq
        simp only [decide_True, if_true] at hc
        simp only [if_true, subBump]
        congr 2
        omega
      · rw [if_neg hq, hsub q hq1 hq2]
        simp only [hq, decide_False] at hc
        simp at hc
        rw [hc]
  | toggle i =>
    obtain ⟨h1, h2⟩ := pageStep_frame tpl render p p1 _ h trivial
    exact nestedInv_of_frame p p1 h1 h2 ⟨hmain, hbound, hsub⟩
  | input i v =>
    obtain ⟨h1, h2⟩ := pageStep_frame tpl render p p1 _ h trivial
    exact nestedInv_of_frame p p1 h1 h2 ⟨hmain, hbound, hsub⟩
  | summarize i host =>
    obtain ⟨h1, h2⟩ := pageStep_frame tpl render p p1 _ h trivial
    exact nestedInv_of_frame p p1 h1 h2 ⟨hmain, hbound, hsub⟩

theorem pageRunKeepingTop_nestedInv (tpl : SectionTemplate) (render : String → String)
    (p p1 : Page) (evs : List PageEvent) (h : pageRunKeepingTop tpl render p evs = some p1)
    (hinv : NestedInv p) : NestedInv p1 ∧ pageRun tpl render p evs = some p1 := by
  induction evs generalizing p with
  | nil =>
    simp only [pageRunKeepingTop, Option.some.injEq] at h
    subst h
    exact ⟨hinv, rfl⟩
  | cons e rest ih =>
    simp only [pageRunKeepingTop] at h
    split at h
    · cases h
    · rename_i hkeep
      simp only [Option.bind_eq_some] at h
      obtain ⟨p2, h2, h3⟩ := h
      have hkeep1 : removesTopLevel p e = false := by simpa using hkeep
      obtain ⟨ih1, ih2⟩ := ih p2 h3 (pageStep_nestedInv tpl render p p2 e h2 hkeep1 hinv)
      exact ⟨ih1, by simp [pageRun, h2, ih2]⟩

/-- C7 (counterexample): add-section, add-subsection, remove the top-level section,
add-section.  Subsection 1.1 is still present, the new top-level section is
numbered 1 again, and `subsections[1]` was reset to 1, not 1 + 1. -/
theorem nested_numbering_broken_after_top_removal :
    (pageRun sampleTemplate id Page.initial
        [.addSection, .addSubsection 0, .remove 0, .addSection]).map
      (fun p => (p.sections.map (fun s => (s.sectionId, s.isSubsection, s.parentSectionId)),
        lookupSub p.sectionNumbers.subsections 1, subsectionCount p.sections 1,
        nestedNumberingConsistent p))
      = some ([("1.1", true, 1), ("1.0", false, 1)], some (.int 1), 1, false) := by
  decide

/-- C7 (amended): starting from the initial page, after every sequence of events in
which no top-level section is removed (subsections may be removed), every
top-level section present, with number `q`, has `subsections[q]` equal to 1 plus
the number of subsections present whose parent number is `q`. -/
theorem nested_numbering_consistent_keeping_top (tpl : SectionTemplate)
    (render : String → String) (evs : List PageEvent) (p : Page)
    (h : pageRunKeepingTop tpl render Page.initial evs = some p) :
    pageRun tpl render Page.initial evs = some p
      ∧ (∀ s ∈ p.sections, s.isSubsection = false →
          lookupSub p.sectionNumbers.subsections s.parentSectionId
            = some (.int (1 + (subsectionCount p.sections s.parentSectionId : Nat))))
      ∧ nestedNumberingConsistent p = true := by
  obtain ⟨⟨_, hbound, hsub⟩, hrun⟩ :=
    pageRunKeepingTop_nestedInv tpl render Page.initial p evs h nestedInv_initial
  have key : ∀ s ∈ p.sections,
      lookupSub p.sectionNumbers.subsections s.parentSectionId
        = some (.int (1 + (subsectionCount p.sections s.parentSectionId : Nat))) := by
    intro s hs
    have hk : s.key ∈ p.keys := List.mem_map_of_mem _ hs
    have hb := hbound s.key hk
    simp only [Section.key] at hb
    rw [subsectionCount_keys]
    exact hsub s.parentSectionId hb.1 hb.2
  refine ⟨hrun, fun s hs _ => key s hs, ?_⟩
  simp only [nestedNumberingConsistent, List.all_eq_true, Bool.or_eq_true, decide_eq_true_eq]
  intro s hs
  exact Or.inr (key s hs)

/-- Witness for C7 (amended): two subsections added under section 1, then the first
of them removed. -/
theorem nested_numbering_consistent_keeping_top_witness :
    (pageRun sampleTemplate id Page.initial
        [.addSection, .addSubsection 0, .addSubsection 0, .remove 1]).map
      (fun p => (lookupSub p.sectionNumbers.subsections 1, subsectionCount p.sections 1))
      = some (some (.int 2), 1)
    ∧ nestedNumberingConsistent keptTopPage = true :=
  ⟨by decide,
    (nested_numbering_consistent_keeping_top sampleTemplate id
      [.addSection, .addSubsection 0, .addSubsection 0, .remove 1] keptTopPage (by decide)).2.2⟩

/-! ## Decimal text of a number -/

theorem digitChar_ne_dot (k : Nat) (h : k < 10) : Nat.digitChar k ≠ '.' := by
  interval_cases k <;> decide

theorem digitValue_digitChar (k : Nat) (h : k < 10) : digitValue (Nat.digitChar k) = k := by
  interval_cases k <;> rfl

theorem toDigitsCore_append (fuel n : Nat) (ds : List Char) :
    Nat.toDigitsCore 10 fuel n ds = Nat.toDigitsCore 10 fuel n [] ++ ds := by
  induction fuel generalizing n ds with
  | zero => simp [Nat.toDigitsCore]
  | succ f ih =>
    simp only [Nat.toDigitsCore]
    split
    · simp
    · rw [ih (n / 10) (Nat.digitChar (n % 10) :: ds), ih (n / 10) [Nat.digitChar (n % 10)]]
      simp

theorem decimalValue_toDigitsCore (fuel n : Nat) (h : n < fuel) :
    decimalValue (Nat.toDigitsCore 10 fuel n []) = n := by
  induction fuel generalizing n with
  | zero => omega
  | succ f ih =>
    simp only [Nat.toDigitsCore]
    split
    · rename_i h0
      have hlt : n < 10 := by omega
      have hv := digitValue_digitChar (n % 10) (Nat.mod_lt _ (by decide))
      rw [Nat.mod_eq_of_lt hlt] at hv ⊢
      simp [decimalValue, hv]
    · rename_i h0
      have hpos : 0 < n := by
        rcases Nat.eq_zero_or_pos n with h1 | h1
        · subst h1; simp at h0
        · exact h1
      have hdiv : n / 10 < f := by
        have := Nat.div_lt_self hpos (by decide : 1 < 10)
        omega
      rw [toDigitsCore_append]
      have := ih (n / 10) hdiv
      simp only [decimalValue] at this ⊢
      rw [List.foldl_append, this]
      simp [digitValue_digitChar (n % 10) (Nat.mod_lt _ (by decide))]
      omega

theorem toDigitsCore_no_dot (fuel n : Nat) (ds : List Char) (h : '.' ∉ ds) :
    '.' ∉ Nat.toDigitsCore 10 fuel n ds := by
  induction fuel generalizing n ds with
  | zero => simpa [Nat.toDigitsCore] using h
  | succ f ih =>
    have hd : '.' ∉ Nat.digitChar (n % 10) :: ds := by
      simp only [List.mem_cons, not_or]
      exact ⟨fun hc => digitChar_ne_dot (n % 10) (Nat.mod_lt _ (by decide)) hc.symm, h⟩
    simp only [Nat.toDigitsCore]
    split
    · exact hd
    · exact ih (n / 10) _ hd

theorem repr_no_dot (n : Nat) : '.' ∉ (Nat.repr n).data :=
  toDigitsCore_no_dot (n + 1) n [] (by simp)

theorem repr_injective (a b : Nat) (h : Nat.repr a = Nat.repr b) : a = b := by
  have h1 : Nat.toDigits 10 a = Nat.toDigits 10 b := congrArg String.data h
  have ha := decimalValue_toDigitsCore (a + 1) a (Nat.lt_succ_self a)
  have hb := decimalValue_toDigitsCore (b + 1) b (Nat.lt_succ_self b)
  unfold Nat.toDigits at h1
  rw [h1] at ha
  omega

/-- The id text `a.b` determines `a` and `b`. -/
theorem dotted_injective (a b c d : Nat)
    (h : Nat.repr a ++ "." ++ Nat.repr b = Nat.repr c ++ "." ++ Nat.repr d) :
    a = c ∧ b = d := by
  have h1 := congrArg String.data h
  simp only [String.data_append] at h1
  rw [List.append_assoc, List.append_assoc, List.singleton_append,
    List.singleton_append] at h1
  have h2 := (List.append_cons_inj_of_not_mem (repr_no_dot a) (repr_no_dot b)).mp h1
  exact ⟨repr_injective a c (String.ext h2.1), repr_injective b d (String.ext h2.2.2)⟩

/-! ## Sections: uniqueness of the ids -/

theorem uniqueInv_of_frame (p p1 : Page) (h1 : p1.sectionNumbers = p.sectionNumbers)
    (h2 : p1.keys = p.keys) (hinv : UniqueInv p) : UniqueInv p1 := by
  unfold UniqueInv at hinv ⊢
  rw [h1, h2]
  exact hinv

theorem toString_natCast (a : Nat) : toString ((a : Nat) : Int) = Nat.repr a := rfl

theorem pageStep_uniqueInv (tpl : SectionTemplate) (render : String → String) (p p1 : Page)
    (e : PageEvent) (h : pageStep tpl render p e = some p1) (hno : e.isRemove = false)
    (hinv : UniqueInv p) : UniqueInv p1 := by
  cases e with
  | addSection =>
    obtain ⟨n, hmain, hkeys, hnodup⟩ := hinv
    simp only [pageStep, Option.some.injEq] at h
    subst h
    obtain ⟨h1, h2⟩ := createNewSection_top tpl 0 p
    have hcast : p.sectionNumbers.main + 1 = ((n + 1 : Nat) : Int) := by
      rw [hmain]; push_cast; rfl
    have hid : toString (p.sectionNumbers.main + 1) ++ ".0"
        = Nat.repr (n + 1) ++ "." ++ Nat.repr 0 := by
      rw [hcast, toString_natCast, String.append_assoc]
      rfl
    refine ⟨n + 1, ?_, ?_, ?_⟩
    · rw [h1]; exact hcast
    · intro k hk
      rw [h2] at hk
      simp only [List.mem_append, List.mem_singleton] at hk
      rw [h1]
      simp only
      rcases hk with hk | hk
      · obtain ⟨a, b, c, ha1, ha2, hp, hsid, hl, hb⟩ := hkeys k hk
        refine ⟨a, b, c, ha1, by omega, hp, hsid, ?_, hb⟩
        rw [lookupSub_setSub, if_neg, hl]
        rw [hcast]
        intro hc
        have : n + 1 = a := by exact_mod_cast hc
        omega
      · subst hk
        refine ⟨n + 1, 0, 1, by omega, le_refl _, hcast, hid, ?_, by omega⟩
        rw [lookupSub_setSub, hcast]
        simp
    · rw [h2, List.map_append, List.nodup_append]
      refine ⟨hnodup, by simp, ?_⟩
      intro x hx1 hx2
      simp only [List.map_cons, List.map_nil, List.mem_singleton] at hx2
      subst hx2
      simp only [List.mem_map] at hx1
      obtain ⟨k, hk, hkx⟩ := hx1
      obtain ⟨a, b, c, ha1, ha2, hp, hsid, hl, hb⟩ := hkeys k hk
      rw [hsid, hid] at hkx
      have := (dotted_injective _ _ _ _ hkx).1
      omega
  | addSubsection i =>
    obtain ⟨n, hmain, hkeys, hnodup⟩ := hinv
    simp only [pageStep, Option.map_eq_some'] at h
    obtain ⟨s, hs, rfl⟩ := h
    obtain ⟨h1, h2⟩ := createNewSection_sub tpl s.parentSectionId p
    have hsk : s.key ∈ p.keys := List.get?_mem (keys_get? p i s hs)
    obtain ⟨a0, b0, c0, ha01, ha02, hp0, hsid0, hl0, hb0⟩ := hkeys s.key hsk
    simp only [Section.key] at hp0
    have hid : toString s.parentSectionId ++ "."
        ++ subToString (lookupSub p.sectionNumbers.subsections s.parentSectionId)
        = Nat.repr a0 ++ "." ++ Nat.repr c0 := by
      rw [hp0, hl0]
      rfl
    have hbump : subBump 1 (lookupSub p.sectionNumbers.subsections s.parentSectionId)
        = .int ((c0 + 1 : Nat) : Int) := by
      rw [hp0, hl0]
      simp [subBump]
    refine ⟨n, ?_, ?_, ?_⟩
    · rw [h1]; exact hmain
    · intro k hk
      rw [h2] at hk
      simp only [List.mem_append, List.mem_singleton] at hk
      rw [h1]
      simp only
      rw [hbump, hp0]
      rcases hk with hk | hk
      · obtain ⟨a, b, c, ha1, ha2, hp, hsid, hl, hb⟩ := hkeys k hk
        by_cases hEq : a = a0
        · subst hEq
          rw [hl0] at hl
          have hcc : c = c0 := by
            have : (c0 : Int) = c := by simpa using hl
            omega
          refine ⟨a, b, c0 + 1, ha1, ha2, hp, hsid, ?_, by omega⟩
          rw [lookupSub_setSub]
          simp
        · refine ⟨a, b, c, ha1, ha2, hp, hsid, ?_, hb⟩
          rw [lookupSub_setSub, if_neg, hl]
          intro hc
          have : a0 = a := by exact_mod_cast hc
          exact hEq this.symm
      · subst hk
        refine ⟨a0, c0, c0 + 1, ha01, ha02, hp0, ?_, ?_, by omega⟩
        · exact hid
        · rw [lookupSub_setSub]
          simp
    · rw [h2, List.map_append, List.nodup_append]
      refine ⟨hnodup, by simp, ?_⟩
      intro x hx1 hx2
      simp only [List.map_cons, List.map_nil, List.mem_singleton] at hx2
      subst hx2
      simp only [List.mem_map] at hx1
      obtain ⟨k, hk, hkx⟩ := hx1
      obtain ⟨a, b, c, ha1, ha2, hp, hsid, hl, hb⟩ := hkeys k hk
      rw [hsid, hid] at hkx
      obtain ⟨hE1, hE2⟩ := dotted_injective _ _ _ _ hkx
      subst hE1
      rw [hl0] at hl
      have : (c0 : Int) = c := by simpa using hl
      omega
  | remove i => simp [PageEvent.isRemove] at hno
  | toggle i =>
    obtain ⟨h1, h2⟩ := pageStep_frame tpl render p p1 _ h trivial
    exact uniqueInv_of_frame p p1 h1 h2 hinv
  | input i v =>
    obtain ⟨h1, h2⟩ := pageStep_frame tpl render p p1 _ h trivial
    exact uniqueInv_of_frame p p1 h1 h2 hinv
  | summarize i host =>
    obtain ⟨h1, h2⟩ := pageStep_frame tpl render p p1 _ h trivial
    exact uniqueInv_of_frame p p1 h1 h2 hinv

theorem pageRun_uniqueInv (tpl : SectionTemplate) (render : String → String) (p p1 : Page)
    (evs : List PageEvent) (h : pageRun tpl render p evs = some p1)
    (hno : ∀ e ∈ evs, e.isRemove = false) (hinv : UniqueInv p) : UniqueInv p1 := by
  induction evs generalizing p with
  | nil =>
    simp only [pageRun, Option.some.injEq] at h
    subst h
    exact hinv
  | cons e rest ih =>
    simp only [pageRun, Option.bind_eq_some] at h
    obtain ⟨p2, h2, h3⟩ := h
    exact ih p2 h3 (fun x hx => hno x (List.mem_cons_of_mem _ hx))
      (pageStep_uniqueInv tpl render p p2 e h2 (hno e (List.mem_cons_self _ _)) hinv)

theorem pageStep_idsInv (tpl : SectionTemplate) (render : String → String) (p p1 : Page)
    (e : PageEvent) (h : pageStep tpl render p e = some p1) (hinv : IdsInv p) : IdsInv p1 := by
  cases e with
  | addSection =>
    simp only [pageStep, Option.some.injEq] at h
    subst h
    intro k hk
    rw [(createNewSection_top tpl 0 p).2] at hk
    simp only [List.mem_append, List.mem_singleton] at hk
    rcases hk with hk | hk
    · exact hinv k hk
    · subst hk
      exact ⟨rfl, rfl, rfl⟩
  | addSubsection i =>
    simp only [pageStep, Option.map_eq_some'] at h
    obtain ⟨s, _, rfl⟩ := h
    intro k hk
    rw [(createNewSection_sub tpl s.parentSectionId p).2] at hk
    simp only [List.mem_append, List.mem_singleton] at hk
    rcases hk with hk | hk
    · exact hinv k hk
    · subst hk
      exact ⟨rfl, rfl, rfl⟩
  | remove i =>
    simp only [pageStep, Option.map_eq_some'] at h
    obtain ⟨s, _, rfl⟩ := h
    intro k hk
    rw [removeSection_keys] at hk
    exact hinv k (mem_of_mem_eraseIdx_keys _ _ _ hk)
  | toggle i =>
    obtain ⟨_, h2⟩ := pageStep_frame tpl render p p1 _ h trivial
    unfold IdsInv
    rw [h2]
    exact hinv
  | input i v =>
    obtain ⟨_, h2⟩ := pageStep_frame tpl render p p1 _ h trivial
    unfold IdsInv
    rw [h2]
    exact hinv
  | summarize i host =>
    obtain ⟨_, h2⟩ := pageStep_frame tpl render p p1 _ h trivial
    unfold IdsInv
    rw [h2]
    exact hinv

theorem pageRun_idsInv (tpl : SectionTemplate) (render : String → String) (p p1 : Page)
    (evs : List PageEvent) (h : pageRun tpl render p evs = some p1) (hinv : IdsInv p) :
    IdsInv p1 := by
  induction evs generalizing p with
  | nil =>
    simp only [pageRun, Option.some.injEq] at h
    subst h
    exact hinv
  | cons e rest ih =>
    simp only [pageRun, Option.bind_eq_some] at h
    obtain ⟨p2, h2, h3⟩ := h
    exact ih p2 h3 (pageStep_idsInv tpl render p p2 e h2 hinv)

theorem idsInv_initial : IdsInv Page.initial := by
  intro k hk
  simp [Page.keys, Page.initial] at hk

theorem append_left_injective (pre : String) : Function.Injective (fun x : String => pre ++ x) := by
  intro x y h
  have h1 := congrArg String.data h
  simp only [String.data_append] at h1
  exact String.ext (List.append_cancel_left h1)

/-- C9 (counterexample): add-section twice, remove the first section, add-section.
`main` went 1, 2, 1, 2, so two sections numbered 2.0 are present, and their
elements share the ids `length-2.0`, `text-summary-2.0` and `warning-2.0`. -/
theorem section_ids_repeat_after_removal :
    (pageRun sampleTemplate id Page.initial
        [.addSection, .addSection, .remove 0, .addSection]).map
      (fun p => (p.sections.map (fun s => (s.sectionId, s.warningElement.id)),
        sectionIdsUnique p))
      = some ([("2.0", "warning-2.0"), ("2.0", "warning-2.0")], false) := by
  decide

/-- C9 (amended): starting from the initial page, after every sequence of events
that contains no click on a remove button, no two sections present have the
same `sectionId`, and no two of them share an id `length-<id>`,
`text-summary-<id>` or `warning-<id>`. -/
theorem section_ids_unique_without_removal (tpl : SectionTemplate) (render : String → String)
    (evs : List PageEvent) (p : Page) (h : pageRun tpl render Page.initial evs = some p)
    (hno : ∀ e ∈ evs, e.isRemove = false) :
    (p.sections.map (fun s => s.sectionId)).Nodup
      ∧ (p.sections.map (fun s => s.lengthOption.id)).Nodup
      ∧ (p.sections.map (fun s => s.elementSummary.id)).Nodup
      ∧ (p.sections.map (fun s => s.warningElement.id)).Nodup
      ∧ sectionIdsUnique p = true := by
  have hu : UniqueInv Page.initial := ⟨0, rfl, by simp [Page.keys, Page.initial],
    by simp [Page.keys, Page.initial]⟩
  obtain ⟨_, _, _, hnodup⟩ := pageRun_uniqueInv tpl render Page.initial p evs h hno hu
  have hids := pageRun_idsInv tpl render Page.initial p evs h idsInv_initial
  have hsid : (p.sections.map (fun s => s.sectionId)).Nodup := by
    simpa [Page.keys, Section.key, Function.comp_def] using hnodup
  have hmap : ∀ (pre : String) (g : Section → String),
      (∀ s ∈ p.sections, g s = pre ++ s.sectionId) → (p.sections.map g).Nodup := by
    intro pre g hg
    have : p.sections.map g = (p.sections.map (fun s => s.sectionId)).map (fun x => pre ++ x) := by
      rw [List.map_map]
      exact List.map_congr_left hg
    rw [this]
    exact hsid.map (append_left_injective pre)
  refine ⟨hsid, hmap "length-" _ ?_, hmap "text-summary-" _ ?_, hmap "warning-" _ ?_, ?_⟩
  · intro s hs
    exact (hids s.key (List.mem_map_of_mem _ hs)).1
  · intro s hs
    exact (hids s.key (List.mem_map_of_mem _ hs)).2.1
  · intro s hs
    exact (hids s.key (List.mem_map_of_mem _ hs)).2.2
  · simpa [sectionIdsUnique] using hsid

/-- Witness for C9 (amended): a top-level section with two subsections and a second
top-level section. -/
theorem section_ids_unique_without_removal_witness :
    (pageRun sampleTemplate id Page.initial
        [.addSection, .addSubsection 0, .addSubsection 1, .addSection]).map
      (fun p => p.sections.map (fun s => s.sectionId)) = some ["1.0", "1.1", "1.2", "2.0"]
    ∧ (fourSectionsPage.sections.map (fun s => s.sectionId)).Nodup :=
  ⟨by decide,
    (section_ids_unique_without_removal sampleTemplate id
      [.addSection, .addSubsection 0, .addSubsection 1, .addSection] fourSectionsPage
      (by decide) (by decide)).1⟩

/-! ## Sections: the warning for a text over the limit -/

theorem length_ne_warning (x y : String) : "length-" ++ x ≠ "warning-" ++ y := by
  intro h
  have h1 := congrArg (fun s : String => s.data.head?) h
  simp only [String.data_append] at h1
  change some 'l' = some 'w' at h1
  exact absurd h1 (by decide)

theorem summary_ne_warning (x y : String) : "text-summary-" ++ x ≠ "warning-" ++ y := by
  intro h
  have h1 := congrArg (fun s : String => s.data.head?) h
  simp only [String.data_append] at h1
  change some 't' = some 'w' at h1
  exact absurd h1 (by decide)

theorem findId_warning (s : Section) (sid : String)
    (h1 : s.lengthOption.id = "length-" ++ s.sectionId)
    (h2 : s.elementSummary.id = "text-summary-" ++ s.sectionId)
    (h3 : s.warningElement.id = "warning-" ++ s.sectionId) :
    s.findId ("warning-" ++ sid)
      = if s.sectionId = sid then some .warningElement else none := by
  unfold Section.findId
  rw [h1, h2, h3, if_neg (length_ne_warning _ _), if_neg (summary_ne_warning _ _)]
  by_cases h : s.sectionId = sid
  · simp [h]
  · have : "warning-" ++ s.sectionId ≠ "warning-" ++ sid :=
      fun hc => h (append_left_injective "warning-" hc)
    simp [h, this]

theorem findElement_warning (l : List Section) (i : Nat) (s : Section)
    (hids : ∀ t ∈ l, t.lengthOption.id = "length-" ++ t.sectionId
      ∧ t.elementSummary.id = "text-summary-" ++ t.sectionId
      ∧ t.warningElement.id = "warning-" ++ t.sectionId)
    (hs : l.get? i = some s)
    (hfirst : ∀ j t, j < i → l.get? j = some t → t.sectionId ≠ s.sectionId) :
    findElement l ("warning-" ++ s.sectionId) = some (i, .warningElement) := by
  induction l generalizing i with
  | nil => simp at hs
  | cons a rest ih =>
    obtain ⟨h1, h2, h3⟩ := hids a (List.mem_cons_self _ _)
    cases i with
    | zero =>
      simp only [List.get?_cons_zero, Option.some.injEq] at hs
      subst hs
      simp [findElement, findId_warning a a.sectionId h1 h2 h3]
    | succ j =>
      simp only [List.get?_cons_succ] at hs
      have hne : a.sectionId ≠ s.sectionId := hfirst 0 a (Nat.succ_pos j) rfl
      have hrest := ih j (fun t ht => hids t (List.mem_cons_of_mem _ ht)) hs
        (fun k t hk ht => hfirst (k + 1) t (Nat.succ_lt_succ hk) ht)
      simp [findElement, findId_warning a s.sectionId h1 h2 h3, hne, hrest]

theorem modifySection_get? (l : List Section) (i : Nat) (s : Section) (f : Section → Section)
    (hs : l.get? i = some s) : (modifySection l i f).get? i = some (f s) := by
  induction l generalizing i with
  | nil => simp at hs
  | cons a rest ih =>
    cases i with
    | zero =>
      simp only [List.get?_cons_zero, Option.some.injEq] at hs
      subst hs
      rfl
    | succ j =>
      simp only [List.get?_cons_succ] at hs
      simpa [modifySection] using ih j hs

theorem tooLongWarning_truthy : jsTruthy tooLongWarning = true := by decide

/-- C2 (counterexample): on the page with two sections numbered 2.0, a text of 6001
letters is typed into the second one and its summarize button is clicked.  No
summary is requested, but the warning is written to the first section: the
warning element of the clicked section is still empty and hidden. -/
theorem too_long_warning_lands_in_other_section :
    pageRun sampleTemplate id Page.initial
        [.addSection, .addSection, .remove 0, .addSection, .input 1 (letters 6001)]
      = some (repeatedTypedPage (letters 6001))
    ∧ (repeatedTypedPage (letters 6001)).sections.get? 1
      = some (sectionInput secondSection (letters 6001))
    ∧ (buttonSummarizeClick id workingSummarizer (repeatedTypedPage (letters 6001))
        (sectionInput secondSection (letters 6001))).2 = []
    ∧ (buttonSummarizeClick id workingSummarizer (repeatedTypedPage (letters 6001))
        (sectionInput secondSection (letters 6001))).1.sections.map
          (fun s => (s.sectionId, s.warningElement.content, s.warningElement.hidden))
      = [("2.0", tooLongWarning, false), ("2.0", "", true)] := by
  have hlen : jsLength (jsTrim (sectionInput secondSection (letters 6001)).inputValue)
      > MAX_MODEL_CHARS := by
    simp [sectionInput_inputValue, jsTrim_letters, jsLength_letters, MAX_MODEL_CHARS]
  have hclick := buttonSummarizeClick_too_long id workingSummarizer
    (repeatedTypedPage (letters 6001)) (sectionInput secondSection (letters 6001)) hlen
  have htrim : jsTruthy (jsTrim (letters 6001)) = true := by
    rw [jsTrim_letters]
    rfl
  have hin : ∀ s : Section, sectionInput s (letters 6001)
      = { s with inputValue := letters 6001, summarizeDisabled := false } := by
    intro s
    simp [sectionInput, htrim]
  refine ⟨rfl, rfl, ?_, ?_⟩
  · rw [hclick]
  · rw [hclick, sectionInput_sectionId]
    simp only [repeatedTypedPage, hin]
    generalize letters 6001 = v
    rfl

/-- C2 (amended): on every page reached from the initial page, for every section
present whose trimmed input is longer than `MAX_MODEL_CHARS` (6000), a click on
its summarize button makes no call at all (`generateSummary`, `summarizer.create`
and `session.summarize` are not called); and when no section earlier in the
document has the same `sectionId`, the click sets the warning element of that
section to the non-empty warning text and removes its `hidden` attribute. -/
theorem too_long_input_shows_warning (tpl : SectionTemplate) (render : String → String)
    (host : Summarizer) (evs : List PageEvent) (p : Page) (i : Nat) (s : Section)
    (h : pageRun tpl render Page.initial evs = some p)
    (hs : p.sections.get? i = some s)
    (hlen : jsLength (jsTrim s.inputValue) > MAX_MODEL_CHARS) :
    (buttonSummarizeClick render host p s).2 = []
      ∧ ((∀ j t, j < i → p.sections.get? j = some t → t.sectionId ≠ s.sectionId) →
          ∃ s1, (buttonSummarizeClick render host p s).1.sections.get? i = some s1
            ∧ s1.warningElement.content = tooLongWarning
            ∧ s1.warningElement.content ≠ ""
            ∧ s1.warningElement.hidden = false) := by
  rw [buttonSummarizeClick_too_long render host p s hlen]
  refine ⟨rfl, ?_⟩
  intro hfirst
  have hids := pageRun_idsInv tpl render Page.initial p evs h idsInv_initial
  have hfind := findElement_warning p.sections i s
    (fun t ht => hids t.key (List.mem_map_of_mem _ ht)) hs hfirst
  refine ⟨s.modifyElem .warningElement
    (fun e => { e with content := tooLongWarning, hidden := !(jsTruthy tooLongWarning) }),
    ?_, ?_, ?_, ?_⟩
  · simp only [updateWarning, updateElementById, hfind]
    exact modifySection_get? p.sections i s _ hs
  · rfl
  · simp only [Section.modifyElem]
    decide
  · simp [Section.modifyElem, tooLongWarning_truthy]

/-- Witness for C2 (amended): a text of 6001 letters typed into the only section;
the click makes no call and shows the warning in that section. -/
theorem too_long_input_shows_warning_witness :
    pageRun sampleTemplate id Page.initial [.addSection, .input 0 (letters 6001)]
      = some (typedPage (letters 6001))
    ∧ (buttonSummarizeClick id workingSummarizer (typedPage (letters 6001))
        (sectionInput firstSection (letters 6001))).2 = []
    ∧ ((buttonSummarizeClick id workingSummarizer (typedPage (letters 6001))
          (sectionInput firstSection (letters 6001))).1.sections.get? 0).map
        (fun s => (s.warningElement.content, s.warningElement.hidden))
      = some (tooLongWarning, false) := by
  have hw := too_long_input_shows_warning sampleTemplate id workingSummarizer
    [.addSection, .input 0 (letters 6001)] (typedPage (letters 6001)) 0
    (sectionInput firstSection (letters 6001)) rfl rfl
    (by simp [sectionInput_inputValue, jsTrim_letters, jsLength_letters, MAX_MODEL_CHARS])
  obtain ⟨s1, h1, h2, _, h4⟩ := hw.2 (fun j t hj => absurd hj (Nat.not_lt_zero j))
  refine ⟨rfl, hw.1, ?_⟩
  rw [h1]
  simp [h2, h4]

end SidePanel
